import Mathlib

/-!
# ChArUco camera calibration tool: embedding of `calibrate_camera_charuco2.cpp`

The program is glue around the OpenCV library.  Everything the library does
(file storage, capture, marker detection, corner interpolation, the two
solvers) is a field of `Env`: a total function whose result the program only
passes along.  Library calls are taken to return normally; the only exception
modelled is the one raised by the `CV_Assert` checks of
`calibrateCameraCharuco2`, which `main` does not catch.

What the program does to the outside world is recorded as a list of `Event`s in
program order, together with the way the run ends (`Outcome`).  A capture is
the finite list of frames it delivers before `grab()` fails, so every run of
the model ends; a session in which neither ESC is pressed nor a grab fails is
not a run of the model.

Numbers: `int` values are `Int`, `float`/`double` values are `Rat` (they are
only stored and passed on, never computed with), container sizes are list
lengths.  The conversions of container sizes to `int` and `unsigned int` are
the identity on the sizes OpenCV's `int`-indexed accessors (`getMat(int)`,
`at<int>(int)`) can address and are not modelled.  The key code returned by
`waitKey` is truncated to `char` as in the source.
-/

namespace Charuco

/-! ## Data -/

/-- Pixel position `cv::Point2f`. -/
structure Point2f where
  x : Rat
  y : Rat
  deriving DecidableEq, Repr

/-- Board position `cv::Point3f`. -/
structure Point3f where
  x : Rat
  y : Rat
  z : Rat
  deriving DecidableEq, Repr

/-- Image dimensions `cv::Size`; `Size()` is `0 x 0`. -/
structure Size where
  width : Int
  height : Int
  deriving DecidableEq, Repr

/-- Numeric matrix `cv::Mat` (camera matrix, distortion coefficients, pose
vectors), row by row; the empty `Mat()` is `[]`. -/
abbrev Mat := List (List Rat)

/-- An image as delivered by a capture or by `imread`: its size and content. -/
structure Image where
  size : Size
  data : Nat
  deriving DecidableEq, Repr

/-- The part of `aruco::CharucoBoard` the program reads: the object points of
the inner chessboard corners, indexed by corner id. -/
structure CharucoBoard where
  chessboardCorners : List Point3f
  deriving DecidableEq, Repr

/-- The record `aruco::DetectorParameters`, restricted to the twenty fields the
program assigns. -/
structure DetectorParameters where
  adaptiveThreshWinSizeMin : Rat
  adaptiveThreshWinSizeMax : Rat
  adaptiveThreshWinSizeStep : Rat
  adaptiveThreshConstant : Rat
  minMarkerPerimeterRate : Rat
  maxMarkerPerimeterRate : Rat
  polygonalApproxAccuracyRate : Rat
  minCornerDistanceRate : Rat
  minDistanceToBorder : Rat
  minMarkerDistanceRate : Rat
  cornerRefinementMethod : Rat
  cornerRefinementWinSize : Rat
  cornerRefinementMaxIterations : Rat
  cornerRefinementMinAccuracy : Rat
  markerBorderBits : Rat
  perspectiveRemovePixelPerCell : Rat
  perspectiveRemoveIgnoredMarginPerCell : Rat
  maxErroneousBitsInBorderRate : Rat
  minOtsuStdDev : Rat
  errorCorrectionRate : Rat

/-- What a `cv::FileStorage` opened for reading offers: the entries of the first
top-level node when that node is a sequence, and for every key the number that
`fs[key] >> x` stores into `x`. -/
structure StorageFile where
  firstTopLevelSeq : Option (List String)
  read : String → Rat

/-- A value written with `fs << key << value`. -/
inductive Value where
  | str (s : String)
  | int (n : Int)
  | real (x : Rat)
  | mat (m : Mat)
  deriving DecidableEq, Repr

/-- Result of `aruco::detectMarkers` / `aruco::refineDetectedMarkers`. -/
structure Markers where
  corners : List (List Point2f)
  ids : List Int
  rejected : List (List Point2f)
  deriving DecidableEq, Repr

/-- Result of `aruco::interpolateCornersCharuco`: the two output matrices, as
the list of corner positions and the list of corner ids. -/
structure CharucoCorners where
  corners : List Point2f
  ids : List Int
  deriving DecidableEq, Repr

/-- What a solver leaves in its output arguments, and its return value. -/
structure Calibration where
  cameraMatrix : Mat
  distCoeffs : Mat
  rvecs : List Mat
  tvecs : List Mat
  error : Rat
  deriving DecidableEq, Repr

/-! ## Constants of `opencv2/calib3d.hpp` -/

/-- Flag `cv::CALIB_USE_INTRINSIC_GUESS`. -/
def CALIB_USE_INTRINSIC_GUESS : Int := 1
/-- Flag `cv::CALIB_FIX_ASPECT_RATIO`. -/
def CALIB_FIX_ASPECT_RATIO : Int := 2
/-- Flag `cv::CALIB_FIX_PRINCIPAL_POINT`. -/
def CALIB_FIX_PRINCIPAL_POINT : Int := 4
/-- Flag `cv::CALIB_ZERO_TANGENT_DIST`. -/
def CALIB_ZERO_TANGENT_DIST : Int := 8

/-! ## The outside world -/

/-- The library and the machine the program runs against. -/
structure Env where
  /-- `FileStorage(name, READ)`: `none` when `isOpened()` is false. -/
  openRead : String → Option StorageFile
  /-- `FileStorage(name, WRITE).isOpened()`. -/
  openWrite : String → Bool
  /-- `samples::findFile(path, required)`. -/
  findFile : String → Bool → String
  /-- The text `strftime` produces with format `%c` for the current time. -/
  calibrationTime : String
  /-- `aruco::DetectorParameters::create()`. -/
  defaultDetectorParameters : DetectorParameters
  /-- Frames `VideoCapture::open(camId)` will deliver, one per successful
  `grab()`; `grab()` fails after the last one. -/
  camera : Int → List Image
  /-- Frames `VideoCapture::open(file)` will deliver. -/
  video : String → List Image
  /-- `imread(name, 1)`. -/
  imread : String → Image
  /-- Return value of the `k`-th call of `waitKey` (counted from 0). -/
  waitKey : Nat → Int
  /-- `aruco::CharucoBoard::create(squaresX, squaresY, squareLength,
  markerLength, getPredefinedDictionary(dictionaryId))`. -/
  createBoard : Int → Int → Rat → Rat → Int → CharucoBoard
  /-- `aruco::detectMarkers(image, dictionary, .., detectorParams, ..)`. -/
  detectMarkers : Image → Int → DetectorParameters → Markers
  /-- `aruco::refineDetectedMarkers(image, board, corners, ids, rejected)`. -/
  refineDetectedMarkers : Image → CharucoBoard → Markers → Markers
  /-- `aruco::interpolateCornersCharuco(corners, ids, image, board, ..)`; the
  last argument is `(cameraMatrix, distCoeffs)` when they are passed. -/
  interpolateCornersCharuco :
    List (List Point2f) → List Int → Image → CharucoBoard → Option (Mat × Mat) → CharucoCorners
  /-- `aruco::calibrateCameraAruco(corners, ids, counter, board, imageSize,
  cameraMatrix, distCoeffs, noArray(), noArray(), flags)`. -/
  calibrateCameraAruco :
    List (List Point2f) → List Int → List Int → CharucoBoard → Size → Mat → Mat → Int → Calibration
  /-- `calibrateCameraRO(objectPoints, imagePoints, imageSize, iFixedPoint,
  cameraMatrix, distCoeffs, rvecs, tvecs, noArray(), flags)`. -/
  calibrateCameraRO :
    List (List Point3f) → List (List Point2f) → Size → Int → Mat → Mat → Int → Calibration

/-- An externally visible action of the program. -/
inductive Event where
  | printMessage
  | printErrors
  | cout (s : String)
  | coutNum (x : Rat)
  | cerr (s : String)
  | fileRead (file : String)
  | openCamera (camId : Int)
  | openVideo (file : String)
  | grab (ok : Bool)
  | imread (name : String)
  | detectMarkers (image : Image)
  | refineDetectedMarkers (image : Image)
  | interpolateCornersCharuco (image : Image) (calibrated : Bool)
  | drawDetectedMarkers
  | drawDetectedCornersCharuco
  | imshow
  | waitKey (delay : Option Int)
  | calibrateCameraAruco (corners : List (List Point2f)) (ids : List Int) (counter : List Int)
      (imageSize : Size) (cameraMatrix distCoeffs : Mat) (flags : Int)
  | callCalibrateCameraCharuco2 (charucoCorners : List (List Point2f))
      (charucoIds : List (List Int)) (imageSize : Size) (cameraMatrix distCoeffs : Mat)
      (flags : Int) (iFix : Int)
  | calibrateCameraRO (objectPoints : List (List Point3f)) (imagePoints : List (List Point2f))
      (imageSize : Size) (iFixedPoint : Int) (cameraMatrix distCoeffs : Mat) (flags : Int)
  | callSaveCameraParams (filename : String) (imageSize : Size) (aspectRatio : Rat) (flags : Int)
      (cameraMatrix distCoeffs : Mat) (totalAvgErr : Rat)
  | fileWrite (filename : String) (key : String) (value : Value)
  deriving DecidableEq, Repr

/-- How a run of `main` ends: a `return` with an exit status, or the uncaught
exception of a failed `CV_Assert`. -/
inductive Outcome where
  | exit (status : Int)
  | assertionFailure
  deriving DecidableEq, Repr

/-! ## `readStringList` (lines 84-111) -/

/-- Position of the last occurrence of `c` in `s` (`std::string::rfind`), `none`
for `npos`. -/
def rfind (s : String) (c : Char) : Option Nat :=
  match s.toList.reverse.indexOf? c with
  | some k => some (s.toList.length - 1 - k)
  | none => none

/-- First `n` characters of `s` (`s.substr(0, n)`). -/
def substr0 (s : String) (n : Nat) : String :=
  String.mk (s.toList.take n)

/-- Body of the loop of `readStringList`: the path stored for one entry. -/
def resolveName (env : Env) (filename : String) (dir_pos : Option Nat) (fname : String) : String :=
  match dir_pos with
  | some p =>
    let fpath := env.findFile (substr0 filename (p + 1) ++ fname) false
    if fpath.isEmpty then env.findFile fname true else fpath
  | none => env.findFile fname true

/-- The function `readStringList`: the returned flag and the list left in `l`. -/
def readStringList (env : Env) (filename : String) : Bool × List String :=
  match env.openRead filename with
  | none => (false, [])
  | some fs =>
    let dir_pos := match rfind filename '/' with
      | some p => some p
      | none => rfind filename '\\'
    match fs.firstTopLevelSeq with
    | none => (false, [])
    | some entries => (true, entries.map (resolveName env filename dir_pos))

/-! ## `readDetectorParameters` (lines 115-140) -/

/-- The function `readDetectorParameters`: the returned flag and the parameter
record afterwards. -/
def readDetectorParameters (env : Env) (filename : String) (params : DetectorParameters) :
    Bool × DetectorParameters :=
  match env.openRead filename with
  | none => (false, params)
  | some fs =>
    (true,
     { adaptiveThreshWinSizeMin := fs.read "adaptiveThreshWinSizeMin"
       adaptiveThreshWinSizeMax := fs.read "adaptiveThreshWinSizeMax"
       adaptiveThreshWinSizeStep := fs.read "adaptiveThreshWinSizeStep"
       adaptiveThreshConstant := fs.read "adaptiveThreshConstant"
       minMarkerPerimeterRate := fs.read "minMarkerPerimeterRate"
       maxMarkerPerimeterRate := fs.read "maxMarkerPerimeterRate"
       polygonalApproxAccuracyRate := fs.read "polygonalApproxAccuracyRate"
       minCornerDistanceRate := fs.read "minCornerDistanceRate"
       minDistanceToBorder := fs.read "minDistanceToBorder"
       minMarkerDistanceRate := fs.read "minMarkerDistanceRate"
       cornerRefinementMethod := fs.read "cornerRefinementMethod"
       cornerRefinementWinSize := fs.read "cornerRefinementWinSize"
       cornerRefinementMaxIterations := fs.read "cornerRefinementMaxIterations"
       cornerRefinementMinAccuracy := fs.read "cornerRefinementMinAccuracy"
       markerBorderBits := fs.read "markerBorderBits"
       perspectiveRemovePixelPerCell := fs.read "perspectiveRemovePixelPerCell"
       perspectiveRemoveIgnoredMarginPerCell := fs.read "perspectiveRemoveIgnoredMarginPerCell"
       maxErroneousBitsInBorderRate := fs.read "maxErroneousBitsInBorderRate"
       minOtsuStdDev := fs.read "minOtsuStdDev"
       errorCorrectionRate := fs.read "errorCorrectionRate" })

/-! ## `saveCameraParams` (lines 146-181) -/

/-- The text `sprintf` leaves in `buf` at lines 166-170. -/
def flagsSummary (flags : Int) : String :=
  "flags: "
    ++ (if flags.land CALIB_USE_INTRINSIC_GUESS ≠ 0 then "+use_intrinsic_guess" else "")
    ++ (if flags.land CALIB_FIX_ASPECT_RATIO ≠ 0 then "+fix_aspectRatio" else "")
    ++ (if flags.land CALIB_FIX_PRINCIPAL_POINT ≠ 0 then "+fix_principal_point" else "")
    ++ (if flags.land CALIB_ZERO_TANGENT_DIST ≠ 0 then "+zero_tangent_dist" else "")

/-- Local state of `saveCameraParams` when it returns `true`: the records sent
to the file storage, in order, and the content of the local array `buf`. -/
structure SaveState where
  written : List (String × Value)
  buf : String
  deriving DecidableEq, Repr

/-- Lines 152-178 of `saveCameraParams`, statement by statement. -/
def saveCameraParamsBody (calibrationTime : String) (imageSize : Size) (aspectRatio : Rat)
    (flags : Int) (cameraMatrix distCoeffs : Mat) (totalAvgErr : Rat) : SaveState :=
  let buf := calibrationTime
  let fs : List (String × Value) := [("calibration_time", Value.str buf)]
  let fs := fs ++ [("image_width", Value.int imageSize.width)]
  let fs := fs ++ [("image_height", Value.int imageSize.height)]
  let fs := if flags.land CALIB_FIX_ASPECT_RATIO ≠ 0
    then fs ++ [("aspectRatio", Value.real aspectRatio)] else fs
  let buf := if flags ≠ 0 then flagsSummary flags else buf
  let fs := fs ++ [("flags", Value.int flags)]
  let fs := fs ++ [("camera_matrix", Value.mat cameraMatrix)]
  let fs := fs ++ [("distortion_coefficients", Value.mat distCoeffs)]
  let fs := fs ++ [("avg_reprojection_error", Value.real totalAvgErr)]
  { written := fs, buf := buf }

/-- The function `saveCameraParams`: the returned flag and the records written
to the file `filename`, in order. -/
def saveCameraParams (env : Env) (filename : String) (imageSize : Size) (aspectRatio : Rat)
    (flags : Int) (cameraMatrix distCoeffs : Mat) (totalAvgErr : Rat) :
    Bool × List (String × Value) :=
  if env.openWrite filename = false then (false, [])
  else (true,
    (saveCameraParamsBody env.calibrationTime imageSize aspectRatio flags cameraMatrix
      distCoeffs totalAvgErr).written)

/-! ## `calibrateCameraCharuco2` (lines 183-236) -/

/-- Inner loop (lines 204-209): the object points of one frame, `none` when a
`CV_Assert` on a corner id fails. -/
def objPointsOfIds (board : CharucoBoard) : List Int → Option (List Point3f)
  | [] => some []
  | pointId :: rest =>
    if h : 0 ≤ pointId ∧ pointId < (board.chessboardCorners.length : Int) then
      match objPointsOfIds board rest with
      | some ps => some (board.chessboardCorners.get ⟨pointId.toNat, by omega⟩ :: ps)
      | none => none
    else none

/-- Outer loop (lines 199-210) over the frames `i`, with `_charucoCorners.getMat(i)`
and `_charucoIds.getMat(i)` the heads of the two lists; `none` when a
`CV_Assert` fails. The second case, a frame of ids without a frame of corners,
does not occur behind the check of lines 192-193. -/
def buildObjPoints (board : CharucoBoard) :
    List (List Point2f) → List (List Int) → Option (List (List Point3f))
  | _, [] => some []
  | [], _ :: _ => none
  | corners :: cornersRest, ids :: idsRest =>
    let nCorners := ids.length
    if nCorners > 0 ∧ nCorners = corners.length then
      match objPointsOfIds board ids with
      | none => none
      | some ps =>
        match buildObjPoints board cornersRest idsRest with
        | none => none
        | some rest => some (ps :: rest)
    else none

/-- The function `calibrateCameraCharuco2`: what it prints and calls, and its
result; `none` is a failed `CV_Assert`. The output arguments `_cameraMatrix`,
`_distCoeffs`, `_rvecs`, `_tvecs` are those of `calibrateCameraRO`. -/
def calibrateCameraCharuco2 (env : Env) (charucoCorners : List (List Point2f))
    (charucoIds : List (List Int)) (board : CharucoBoard) (imageSize : Size)
    (cameraMatrix distCoeffs : Mat) (flags : Int) (iFix : Int) :
    List Event × Option Calibration :=
  if charucoIds.length > 0 ∧ charucoIds.length = charucoCorners.length then
    match buildObjPoints board charucoCorners charucoIds with
    | none => ([], none)
    | some allObjPoints =>
      (allObjPoints.map (fun point => Event.cout (toString point.length ++ "\n"))
        ++ [Event.calibrateCameraRO allObjPoints charucoCorners imageSize iFix cameraMatrix
              distCoeffs flags],
       some (env.calibrateCameraRO allObjPoints charucoCorners imageSize iFix cameraMatrix
              distCoeffs flags))
  else ([], none)

/-! ## `main` (lines 240-542) -/

/-- What `CommandLineParser` reports for the command line: `argc`, the value of
every option read with `parser.get`, for the options tested with `parser.has`
the value when `has` is true, and the result of `parser.check()`. -/
structure CommandLine where
  argc : Int
  w : Int
  h : Int
  sl : Rat
  ml : Rat
  d : Int
  l : String
  outfile : String
  sc : Bool
  test : Bool
  a : Option Rat
  zt : Bool
  pc : Bool
  dp : Option String
  rs : Bool
  ci : Int
  v : Option String
  check : Bool

/-- The local `calibrationFlags` after lines 260-267. -/
def calibrationFlags (cl : CommandLine) : Int :=
  let flags : Int := 0
  let flags := if cl.a.isSome then flags.lor CALIB_FIX_ASPECT_RATIO else flags
  let flags := if cl.zt then flags.lor CALIB_ZERO_TANGENT_DIST else flags
  let flags := if cl.pc then flags.lor CALIB_FIX_PRINCIPAL_POINT else flags
  flags

/-- The local `aspectRatio` after lines 261-265. -/
def aspectRatio (cl : CommandLine) : Rat :=
  match cl.a with
  | some r => r
  | none => 1

/-- The local `video` after lines 280-284. -/
def video (cl : CommandLine) : String :=
  match cl.v with
  | some s => s
  | none => ""

/-- The locals of `main` when the acquisition loop starts (line 329).
`inputVideo` holds the frames the capture will deliver, none when no capture
was opened; `waitTime` is `none` while uninitialised. -/
structure Config where
  squaresX : Int
  squaresY : Int
  squareLength : Rat
  markerLength : Rat
  dictionaryId : Int
  outputFile : String
  showChessboardCorners : Bool
  isTestRun : Bool
  calibrationFlags : Int
  aspectRatio : Rat
  detectorParams : DetectorParameters
  refindStrategy : Bool
  inputVideo : List Image
  waitTime : Option Int
  imageList : List String
  charucoboard : CharucoBoard

/-- Lines 269-276: the detector parameters, the events of reading them, and
whether the run goes on. -/
def loadDetectorParameters (env : Env) (cl : CommandLine) :
    List Event × Bool × DetectorParameters :=
  match cl.dp with
  | none => ([], true, env.defaultDetectorParameters)
  | some file =>
    let r := readDetectorParameters env file env.defaultDetectorParameters
    ([Event.fileRead file], r.1, r.2)

/-- Lines 241-319 of `main`: either the run ends early with the given outcome,
or the acquisition starts with the given locals. -/
def initialise (env : Env) (cl : CommandLine) : List Event × (Outcome ⊕ Config) :=
  if cl.argc < 7 then ([Event.printMessage], Sum.inl (Outcome.exit 0)) else
  let imageListFilename := cl.l
  let dp := loadDetectorParameters env cl
  if dp.2.1 = false then
    (dp.1 ++ [Event.cerr "Invalid detector parameters file\n"], Sum.inl (Outcome.exit 0)) else
  let video := video cl
  if cl.check = false then (dp.1 ++ [Event.printErrors], Sum.inl (Outcome.exit 0)) else
  if ¬ video.isEmpty ∧ ¬ imageListFilename.isEmpty then
    (dp.1 ++ [Event.cout "Can't have both video and image list input\n"],
      Sum.inl (Outcome.exit 1)) else
  let cam : List Event × List Image × Option Int :=
    if video.isEmpty ∧ imageListFilename.isEmpty then
      ([Event.cout ("Connecting to cam nr " ++ toString cl.ci ++ "\n"), Event.openCamera cl.ci],
        env.camera cl.ci, some 10)
    else ([], [], none)
  let vid : List Event × List Image × Option Int :=
    if ¬ video.isEmpty then
      ([Event.cout ("Reading from video file " ++ video ++ "\n"), Event.openVideo video],
        env.video video, some 0)
    else ([], cam.2.1, cam.2.2)
  let lst : List Event × List String :=
    if ¬ imageListFilename.isEmpty then
      ([Event.cout ("Reading from image list " ++ imageListFilename ++ "\n"),
        Event.fileRead (env.findFile imageListFilename true)],
       (readStringList env (env.findFile imageListFilename true)).2)
    else ([], [])
  (dp.1 ++ cam.1 ++ vid.1 ++ lst.1,
   Sum.inr
    { squaresX := cl.w
      squaresY := cl.h
      squareLength := cl.sl
      markerLength := cl.ml
      dictionaryId := cl.d
      outputFile := cl.outfile
      showChessboardCorners := cl.sc
      isTestRun := cl.test
      calibrationFlags := calibrationFlags cl
      aspectRatio := aspectRatio cl
      detectorParams := dp.2.2
      refindStrategy := cl.rs
      inputVideo := vid.2.1
      waitTime := vid.2.2
      imageList := lst.2
      charucoboard := env.createBoard cl.w cl.h cl.sl cl.ml cl.d })

/-- The data collected from the frames (lines 322-325). -/
structure Acquired where
  allCorners : List (List (List Point2f))
  allIds : List (List Int)
  allImgs : List Image
  imgSize : Size
  deriving DecidableEq, Repr

/-- The collection before the first frame. -/
def Acquired.empty : Acquired :=
  { allCorners := [], allIds := [], allImgs := [], imgSize := { width := 0, height := 0 } }

/-- The four statements that retain a frame (lines 371-374 and 425-428). -/
def Acquired.push (st : Acquired) (corners : List (List Point2f)) (ids : List Int)
    (image : Image) : Acquired :=
  { allCorners := st.allCorners ++ [corners]
    allIds := st.allIds ++ [ids]
    allImgs := st.allImgs ++ [image]
    imgSize := image.size }

/-- The conversion `(char)` applied to the result of `waitKey`. -/
def toChar (key : Int) : Int :=
  (key + 128) % 256 - 128

/-- Marker detection on one image (lines 338-343 and 384-388). -/
def detect (env : Env) (cfg : Config) (image : Image) : List Event × Markers :=
  let found := env.detectMarkers image cfg.dictionaryId cfg.detectorParams
  if cfg.refindStrategy then
    ([Event.detectMarkers image, Event.refineDetectedMarkers image],
      env.refineDetectedMarkers image cfg.charucoboard found)
  else ([Event.detectMarkers image], found)

/-- First-pass interpolation on one image (lines 346-350 and 390-394). -/
def interpolate (env : Env) (cfg : Config) (image : Image) (m : Markers) :
    List Event × CharucoCorners :=
  if m.ids.length > 0 then
    ([Event.interpolateCornersCharuco image false],
      env.interpolateCornersCharuco m.corners m.ids image cfg.charucoboard none)
  else ([], { corners := [], ids := [] })

/-- The drawing calls on the copy of the image (lines 354-359 and 401-405). -/
def draw (m : Markers) (c : CharucoCorners) : List Event :=
  (if m.ids.length > 0 then [Event.drawDetectedMarkers] else [])
    ++ (if c.corners.length > 0 then [Event.drawDetectedCornersCharuco] else [])

/-- The loop over the capture (lines 330-376). The first argument lists the
frames still to come, `k` counts the calls of `waitKey` made so far. -/
def cameraLoop (env : Env) (cfg : Config) :
    List Image → Nat → Acquired → List Event × Acquired × Nat
  | [], k, st => ([Event.grab false], st, k)
  | image :: frames, k, st =>
    let m := detect env cfg image
    let c := interpolate env cfg image m.2
    let evs := [Event.grab true] ++ m.1 ++ c.1 ++ draw m.2 c.2
      ++ [Event.imshow, Event.waitKey cfg.waitTime]
    let key := toChar (env.waitKey k)
    if key = 27 then (evs, st, k + 1)
    else if key = 99 ∧ m.2.ids.length > 0 then
      let r := cameraLoop env cfg frames (k + 1) (st.push m.2.corners m.2.ids image)
      (evs ++ [Event.cout "Frame captured\n"] ++ r.1, r.2)
    else
      let r := cameraLoop env cfg frames (k + 1) st
      (evs ++ r.1, r.2)

/-- The loop over the image list (lines 378-430). -/
def imageListLoop (env : Env) (cfg : Config) :
    List String → Nat → Acquired → List Event × Acquired × Nat
  | [], k, st => ([], st, k)
  | imageName :: names, k, st =>
    let image := env.imread imageName
    let m := detect env cfg image
    let c := interpolate env cfg image m.2
    let evs := [Event.cout ("Using image " ++ imageName), Event.imread imageName] ++ m.1 ++ c.1
      ++ [Event.cout (" found " ++ toString m.2.corners.length ++ " aruco tags\n")]
    if cfg.isTestRun then
      let evs := evs ++ draw m.2 c.2 ++ [Event.imshow, Event.waitKey (some 0)]
      let key := toChar (env.waitKey k)
      if key = 27 then (evs, st, k + 1)
      else
        let r := imageListLoop env cfg names (k + 1) st
        (evs ++ r.1, r.2)
    else
      let r := imageListLoop env cfg names k (st.push m.2.corners m.2.ids image)
      (evs ++ r.1, r.2)

/-- Lines 329-431: the acquisition, from the capture when the image list is
empty and from the image list otherwise. -/
def acquire (env : Env) (cfg : Config) : List Event × Acquired × Nat :=
  if cfg.imageList.isEmpty then cameraLoop env cfg cfg.inputVideo 0 Acquired.empty
  else imageListLoop env cfg cfg.imageList 0 Acquired.empty

/-- The three vectors prepared for the marker-only calibration (lines 453-455). -/
structure Marshalled where
  allCornersConcatenated : List (List Point2f)
  allIdsConcatenated : List Int
  markerCounterPerFrame : List Int
  deriving DecidableEq, Repr

/-- The loops of lines 457-463. An index past the end of `allIds[i]`, which the
source leaves undefined, reads `0`. -/
def marshal (allCorners : List (List (List Point2f))) (allIds : List (List Int)) : Marshalled :=
  (List.range allCorners.length).foldl
    (fun acc i =>
      let frame := allCorners.getD i []
      let acc := { acc with
        markerCounterPerFrame := acc.markerCounterPerFrame ++ [(frame.length : Int)] }
      (List.range frame.length).foldl
        (fun acc j =>
          { acc with
            allCornersConcatenated := acc.allCornersConcatenated ++ [frame.getD j []]
            allIdsConcatenated := acc.allIdsConcatenated ++ [(allIds.getD i []).getD j 0] })
        acc)
    { allCornersConcatenated := [], allIdsConcatenated := [], markerCounterPerFrame := [] }

/-- The image `Mat()`. -/
def Image.none : Image :=
  { size := { width := 0, height := 0 }, data := 0 }

/-- The loop of lines 480-490: the second interpolation of every retained frame,
now with the camera parameters of the marker-only calibration. -/
def interpolateAll (env : Env) (cfg : Config) (st : Acquired) (cameraMatrix distCoeffs : Mat)
    (nFrames : Nat) : List CharucoCorners :=
  (List.range nFrames).map (fun i =>
    env.interpolateCornersCharuco (st.allCorners.getD i []) (st.allIds.getD i [])
      (st.allImgs.getD i Image.none) cfg.charucoboard (some (cameraMatrix, distCoeffs)))

/-- The display loop of lines 516-538 over the frame indices still to show. -/
def showFrames (env : Env) (allIds : List (List Int)) (allCharucoCorners : List (List Point2f)) :
    List Nat → Nat → List Event
  | [], _ => []
  | frame :: rest, k =>
    let drawn :=
      if (allIds.getD frame []).length > 0 ∧ (allCharucoCorners.getD frame []).length > 0
      then [Event.drawDetectedCornersCharuco] else []
    let key := toChar (env.waitKey k)
    drawn ++ [Event.imshow, Event.waitKey (some 0)]
      ++ (if key = 27 then [] else showFrames env allIds allCharucoCorners rest (k + 1))

/-- The local `cameraMatrix` when the marker-only calibration is called (lines
442-450). -/
def initialCameraMatrix (cfg : Config) : Mat :=
  if cfg.calibrationFlags.land CALIB_FIX_ASPECT_RATIO ≠ 0 then
    [[cfg.aspectRatio, 0, 0], [0, cfg.aspectRatio, 0], [0, 0, 1]]
  else []

/-- The marker-only calibration of lines 467-470 on the marshalled detections. -/
def arucoCalibration (env : Env) (cfg : Config) (st : Acquired) : Calibration :=
  let m := marshal st.allCorners st.allIds
  env.calibrateCameraAruco m.allCornersConcatenated m.allIdsConcatenated
    m.markerCounterPerFrame cfg.charucoboard st.imgSize (initialCameraMatrix cfg) []
    cfg.calibrationFlags

/-- The interpolated corners of all retained frames after lines 473-490; its
two projections are `allCharucoCorners` and `allCharucoIds`. -/
def secondPass (env : Env) (cfg : Config) (st : Acquired) : List CharucoCorners :=
  interpolateAll env cfg st (arucoCalibration env cfg st).cameraMatrix
    (arucoCalibration env cfg st).distCoeffs st.allCorners.length

/-- The call of the marker-only calibration (lines 467-470) as an event. -/
def arucoCall (cfg : Config) (st : Acquired) : Event :=
  let m := marshal st.allCorners st.allIds
  Event.calibrateCameraAruco m.allCornersConcatenated m.allIdsConcatenated
    m.markerCounterPerFrame st.imgSize (initialCameraMatrix cfg) [] cfg.calibrationFlags

/-- The interpolation calls of the loop of lines 480-490 as events. -/
def secondPassEvents (st : Acquired) : List Event :=
  (List.range st.allCorners.length).map (fun i =>
    Event.interpolateCornersCharuco (st.allImgs.getD i Image.none) true)

/-- The call of `calibrateCameraCharuco2` at lines 498-500 as an event. -/
def charucoCall (env : Env) (cfg : Config) (st : Acquired) : Event :=
  Event.callCalibrateCameraCharuco2 ((secondPass env cfg st).map (fun c => c.corners))
    ((secondPass env cfg st).map (fun c => c.ids)) st.imgSize
    (arucoCalibration env cfg st).cameraMatrix (arucoCalibration env cfg st).distCoeffs
    cfg.calibrationFlags (cfg.squaresX - 2)

/-- What the call of `calibrateCameraCharuco2` at lines 498-500 does and returns. -/
def charucoResult (env : Env) (cfg : Config) (st : Acquired) : List Event × Option Calibration :=
  calibrateCameraCharuco2 env ((secondPass env cfg st).map (fun c => c.corners))
    ((secondPass env cfg st).map (fun c => c.ids)) cfg.charucoboard st.imgSize
    (arucoCalibration env cfg st).cameraMatrix (arucoCalibration env cfg st).distCoeffs
    cfg.calibrationFlags (cfg.squaresX - 2)

/-- The call of `saveCameraParams` at lines 502-504 as an event. -/
def saveCall (cfg : Config) (st : Acquired) (cal : Calibration) : Event :=
  Event.callSaveCameraParams cfg.outputFile st.imgSize cfg.aspectRatio cfg.calibrationFlags
    cal.cameraMatrix cal.distCoeffs cal.error

/-- Lines 505-541 of `main`, after `saveCameraParams` has returned `saved`:
the writes it made, then the error message or the report and the optional
display. `k` is the number of `waitKey` calls so far. -/
def afterSave (env : Env) (cfg : Config) (st : Acquired) (cal : Calibration)
    (saved : Bool × List (String × Value)) (k : Nat) : List Event :=
  let evWrite := saved.2.map (fun kv => Event.fileWrite cfg.outputFile kv.1 kv.2)
  if saved.1 = false then evWrite ++ [Event.cerr "Cannot save output file\n"]
  else
    let allCharucoCorners := (secondPass env cfg st).map (fun c => c.corners)
    let filteredImages := (List.range st.allCorners.length).map (fun i =>
      st.allImgs.getD i Image.none)
    evWrite
      ++ [Event.cout "Rep Error: ", Event.coutNum cal.error, Event.cout "\n",
          Event.cout "Rep Error Aruco: ", Event.coutNum (arucoCalibration env cfg st).error,
          Event.cout "\n", Event.cout ("Calibration saved to " ++ cfg.outputFile ++ "\n")]
      ++ (if cfg.showChessboardCorners then
            showFrames env st.allIds allCharucoCorners (List.range filteredImages.length) k
          else [])

/-- Lines 437-541 of `main`: the two gates, the two calibrations, the output
file and the optional display. `k` is the number of `waitKey` calls so far. -/
def calibrate (env : Env) (cfg : Config) (st : Acquired) (k : Nat) : List Event × Outcome :=
  if st.allIds.length < 1 then
    ([Event.cerr "Not enough captures for calibration\n"], Outcome.exit 0) else
  let allCharucoCorners := (secondPass env cfg st).map (fun c => c.corners)
  if allCharucoCorners.length < 4 then
    ([arucoCall cfg st] ++ secondPassEvents st
      ++ [Event.cerr "Not enough corners for calibration\n"], Outcome.exit 0) else
  let r := charucoResult env cfg st
  match r.2 with
  | none =>
    ([arucoCall cfg st] ++ secondPassEvents st ++ [charucoCall env cfg st] ++ r.1,
      Outcome.assertionFailure)
  | some cal =>
    let saved := saveCameraParams env cfg.outputFile st.imgSize cfg.aspectRatio
      cfg.calibrationFlags cal.cameraMatrix cal.distCoeffs cal.error
    ([arucoCall cfg st] ++ secondPassEvents st ++ [charucoCall env cfg st] ++ r.1
      ++ [saveCall cfg st cal] ++ afterSave env cfg st cal saved k, Outcome.exit 0)

/-- The function `main`: the events of the run in program order and the way
it ends. -/
def main (env : Env) (cl : CommandLine) : List Event × Outcome :=
  let i := initialise env cl
  match i.2 with
  | Sum.inl outcome => (i.1, outcome)
  | Sum.inr cfg =>
    let a := acquire env cfg
    if cfg.isTestRun then (i.1 ++ a.1 ++ [Event.cout "Test run finished\n"], Outcome.exit 0)
    else
      let c := calibrate env cfg a.2.1 a.2.2
      (i.1 ++ a.1 ++ c.1, c.2)

/-! ## Classification of events -/

/-- The call of the marker-only solver `aruco::calibrateCameraAruco`. -/
def Event.isArucoCall : Event → Bool
  | Event.calibrateCameraAruco _ _ _ _ _ _ _ => true
  | _ => false

/-- The call of `calibrateCameraCharuco2`. -/
def Event.isCharucoCall : Event → Bool
  | Event.callCalibrateCameraCharuco2 _ _ _ _ _ _ _ => true
  | _ => false

/-- The call of `saveCameraParams`. -/
def Event.isSaveCall : Event → Bool
  | Event.callSaveCameraParams _ _ _ _ _ _ _ => true
  | _ => false

/-- A record written to the output file. -/
def Event.isFileWrite : Event → Bool
  | Event.fileWrite _ _ _ => true
  | _ => false

/-- A calibration call, the call of `saveCameraParams` or a write to the output
file. -/
def Event.isSolveOrSave : Event → Bool
  | Event.calibrateCameraAruco _ _ _ _ _ _ _ => true
  | Event.callCalibrateCameraCharuco2 _ _ _ _ _ _ _ => true
  | Event.calibrateCameraRO _ _ _ _ _ _ _ => true
  | Event.callSaveCameraParams _ _ _ _ _ _ _ => true
  | Event.fileWrite _ _ _ => true
  | _ => false

/-- The `flags` argument of the calls that take one. -/
def Event.passedFlags : Event → Option Int
  | Event.calibrateCameraAruco _ _ _ _ _ _ flags => some flags
  | Event.callCalibrateCameraCharuco2 _ _ _ _ _ flags _ => some flags
  | Event.calibrateCameraRO _ _ _ _ _ _ flags => some flags
  | Event.callSaveCameraParams _ _ _ flags _ _ _ => some flags
  | _ => none

/-- A trace without calibration calls, `saveCameraParams` calls and writes. -/
def Quiet (trace : List Event) : Prop :=
  ∀ e ∈ trace, e.isSolveOrSave = false

instance (trace : List Event) : Decidable (Quiet trace) := by
  unfold Quiet
  infer_instance

/-! ## Reference functions for the marshalling and the capture loop -/

/-- Splitting a concatenated vector by the counters: the first counter gives the
length of the first piece, and so on. -/
def splitByCounter {α : Type} : List Int → List α → List (List α)
  | [], _ => []
  | n :: counter, xs => xs.take n.toNat :: splitByCounter counter (xs.drop n.toNat)

/-- The frames of a capture that come before the first frame at which the key is
ESC, each with the index of its `waitKey` call; `k` is the index of the first
call. -/
def framesBeforeEsc (env : Env) (k : Nat) (frames : List Image) : List (Nat × Image) :=
  (frames.enumFrom k).takeWhile (fun p => decide (toChar (env.waitKey p.1) ≠ 27))

/-- Of the frames before the first ESC, those at which the key is `c` and at
least one marker was detected. -/
def framesCaptured (env : Env) (cfg : Config) (k : Nat) (frames : List Image) : List Image :=
  ((framesBeforeEsc env k frames).filter (fun p =>
    decide (toChar (env.waitKey p.1) = 99 ∧ (detect env cfg p.2).2.ids.length > 0))).map Prod.snd

/-! ## A small concrete world

Images that show one marker each; from `edge.png` no chessboard corner can be
interpolated. A parameter file, three image lists and one writable output
file. -/

/-- A board with two inner corners. -/
def sampleBoard : CharucoBoard :=
  { chessboardCorners := [{ x := 1, y := 1, z := 0 }, { x := 2, y := 1, z := 0 }] }

/-- Detector parameters with every field zero. -/
def sampleParameters : DetectorParameters :=
  { adaptiveThreshWinSizeMin := 0, adaptiveThreshWinSizeMax := 0, adaptiveThreshWinSizeStep := 0,
    adaptiveThreshConstant := 0, minMarkerPerimeterRate := 0, maxMarkerPerimeterRate := 0,
    polygonalApproxAccuracyRate := 0, minCornerDistanceRate := 0, minDistanceToBorder := 0,
    minMarkerDistanceRate := 0, cornerRefinementMethod := 0, cornerRefinementWinSize := 0,
    cornerRefinementMaxIterations := 0, cornerRefinementMinAccuracy := 0, markerBorderBits := 0,
    perspectiveRemovePixelPerCell := 0, perspectiveRemoveIgnoredMarginPerCell := 0,
    maxErroneousBitsInBorderRate := 0, minOtsuStdDev := 0, errorCorrectionRate := 0 }

/-- One marker quadruple. -/
def sampleQuad : List Point2f :=
  [{ x := 0, y := 0 }, { x := 1, y := 0 }, { x := 1, y := 1 }, { x := 0, y := 1 }]

/-- The image stored under a name: `640 x 480`, content `1` for `edge.png` (a
marker is visible, but no chessboard corner next to it) and `0` otherwise. -/
def sampleImage (name : String) : Image :=
  { size := { width := 640, height := 480 }, data := if name = "edge.png" then 1 else 0 }

/-- A result for the solvers: fixed matrices and error. -/
def sampleCalibration : Calibration :=
  { cameraMatrix := [[1, 0, 0], [0, 1, 0], [0, 0, 1]], distCoeffs := [[0, 0, 0, 0, 0]],
    rvecs := [], tvecs := [], error := 1 / 2 }

/-- The concrete world. -/
def sampleEnv : Env :=
  { openRead := fun name =>
      if name = "params.yml" then some { firstTopLevelSeq := none, read := fun _ => 0 }
      else if name = "list.yml" then
        some { firstTopLevelSeq := some ["a.png", "b.png", "c.png", "d.png"], read := fun _ => 0 }
      else if name = "list2.yml" then
        some { firstTopLevelSeq := some ["a.png", "b.png", "c.png", "edge.png"],
               read := fun _ => 0 }
      else if name = "list3.yml" then
        some { firstTopLevelSeq := some ["a.png", "b.png"], read := fun _ => 0 }
      else none
    openWrite := fun name => decide (name = "out.yml")
    findFile := fun path _ => path
    calibrationTime := "Sat Oct 31 12:00:00 2026"
    defaultDetectorParameters := sampleParameters
    camera := fun _ => []
    video := fun _ => []
    imread := sampleImage
    waitKey := fun _ => -1
    createBoard := fun _ _ _ _ _ => sampleBoard
    detectMarkers := fun _ _ _ => { corners := [sampleQuad], ids := [0], rejected := [] }
    refineDetectedMarkers := fun _ _ m => m
    interpolateCornersCharuco := fun _ _ image _ _ =>
      if image.data = 0 then { corners := [{ x := 1, y := 1 }], ids := [0] }
      else { corners := [], ids := [] }
    calibrateCameraAruco := fun _ _ _ _ _ _ _ _ => sampleCalibration
    calibrateCameraRO := fun _ _ _ _ _ _ _ => sampleCalibration }

/-- The command line `-w=5 -h=7 -sl=0.04 -ml=0.02 -d=10 -l=list.yml out.yml`. -/
def sampleCommandLine : CommandLine :=
  { argc := 8, w := 5, h := 7, sl := 4 / 100, ml := 2 / 100, d := 10, l := "list.yml",
    outfile := "out.yml", sc := false, test := false, a := none, zt := false, pc := false,
    dp := none, rs := false, ci := 0, v := none, check := true }

/-- The locals of `main` at the start of the acquisition for the sample command
line in the sample world. -/
def sampleConfig : Config :=
  { squaresX := 5, squaresY := 7, squareLength := 4 / 100, markerLength := 2 / 100,
    dictionaryId := 10, outputFile := "out.yml", showChessboardCorners := false,
    isTestRun := false, calibrationFlags := 0, aspectRatio := 1,
    detectorParams := sampleParameters, refindStrategy := false, inputVideo := [],
    waitTime := none, imageList := ["a.png", "b.png", "c.png", "d.png"],
    charucoboard := sampleBoard }

/-- The sample world with a detector that finds no marker in any image. -/
def blankEnv : Env :=
  { sampleEnv with
    detectMarkers := fun _ _ _ => { corners := [], ids := [], rejected := [] } }

/-- A frame of the sample camera with the given content. -/
def sampleFrame (data : Nat) : Image :=
  { size := { width := 640, height := 480 }, data := data }

/-- The sample world with a camera that delivers five frames, no marker being
visible in frame 1, and the keys `c`, `c`, none, ESC at the first four. -/
def cameraEnv : Env :=
  { sampleEnv with
    camera := fun _ => [sampleFrame 0, sampleFrame 1, sampleFrame 2, sampleFrame 3, sampleFrame 4]
    detectMarkers := fun image _ _ =>
      if image.data = 1 then { corners := [], ids := [], rejected := [] }
      else { corners := [sampleQuad], ids := [0], rejected := [] }
    waitKey := fun k => if k = 0 then 99 else if k = 1 then 99 else if k = 2 then -1 else 27 }

/-- The locals of `main` at the start of the acquisition from the sample camera. -/
def cameraConfig : Config :=
  { sampleConfig with
    inputVideo := cameraEnv.camera 0, waitTime := some 10, imageList := [] }

/-! ## Traces of the phases of `main` -/

theorem quiet_nil : Quiet [] := by
  intro e he
  cases he

theorem quiet_append {s t : List Event} : Quiet (s ++ t) ↔ Quiet s ∧ Quiet t := by
  unfold Quiet
  constructor
  · intro h
    exact ⟨fun e he => h e (List.mem_append_left t he), fun e he => h e (List.mem_append_right s he)⟩
  · rintro ⟨hs, ht⟩ e he
    rcases List.mem_append.mp he with h | h
    · exact hs e h
    · exact ht e h

theorem quiet_cons {e : Event} {t : List Event} : Quiet (e :: t) ↔ e.isSolveOrSave = false ∧ Quiet t := by
  unfold Quiet
  simp

theorem detect_quiet (env : Env) (cfg : Config) (image : Image) : Quiet (detect env cfg image).1 := by
  unfold detect
  split <;> simp [quiet_cons, quiet_nil, Event.isSolveOrSave]

theorem interpolate_quiet (env : Env) (cfg : Config) (image : Image) (m : Markers) :
    Quiet (interpolate env cfg image m).1 := by
  unfold interpolate
  split <;> simp [quiet_cons, quiet_nil, Event.isSolveOrSave]

theorem draw_quiet (m : Markers) (c : CharucoCorners) : Quiet (draw m c) := by
  unfold draw
  split <;> split <;> simp [quiet_cons, quiet_nil, Event.isSolveOrSave]

theorem cameraLoop_quiet (env : Env) (cfg : Config) (frames : List Image) :
    ∀ (k : Nat) (st : Acquired), Quiet (cameraLoop env cfg frames k st).1 := by
  induction frames with
  | nil =>
    intro k st
    simp [cameraLoop, quiet_cons, quiet_nil, Event.isSolveOrSave]
  | cons image frames ih =>
    intro k st
    have hd := detect_quiet env cfg image
    have hi := interpolate_quiet env cfg image (detect env cfg image).2
    have hw := draw_quiet (detect env cfg image).2 (interpolate env cfg image (detect env cfg image).2).2
    simp only [cameraLoop]
    split
    · simp [quiet_append, quiet_cons, quiet_nil, Event.isSolveOrSave, hd, hi, hw]
    · split
      · simp [quiet_append, quiet_cons, quiet_nil, Event.isSolveOrSave, hd, hi, hw, ih]
      · simp [quiet_append, quiet_cons, quiet_nil, Event.isSolveOrSave, hd, hi, hw, ih]

theorem imageListLoop_quiet (env : Env) (cfg : Config) (names : List String) :
    ∀ (k : Nat) (st : Acquired), Quiet (imageListLoop env cfg names k st).1 := by
  induction names with
  | nil =>
    intro k st
    simp [imageListLoop, quiet_nil]
  | cons imageName names ih =>
    intro k st
    have hd := detect_quiet env cfg (env.imread imageName)
    have hi := interpolate_quiet env cfg (env.imread imageName) (detect env cfg (env.imread imageName)).2
    have hw := draw_quiet (detect env cfg (env.imread imageName)).2
      (interpolate env cfg (env.imread imageName) (detect env cfg (env.imread imageName)).2).2
    simp only [imageListLoop]
    split
    · split
      · simp [quiet_append, quiet_cons, quiet_nil, Event.isSolveOrSave, hd, hi, hw]
      · simp [quiet_append, quiet_cons, quiet_nil, Event.isSolveOrSave, hd, hi, hw, ih]
    · simp [quiet_append, quiet_cons, quiet_nil, Event.isSolveOrSave, hd, hi, hw, ih]

theorem acquire_quiet (env : Env) (cfg : Config) : Quiet (acquire env cfg).1 := by
  unfold acquire
  split
  · exact cameraLoop_quiet env cfg _ _ _
  · exact imageListLoop_quiet env cfg _ _ _

theorem initialise_quiet (env : Env) (cl : CommandLine) : Quiet (initialise env cl).1 := by
  have hdp : Quiet (loadDetectorParameters env cl).1 := by
    unfold loadDetectorParameters
    cases cl.dp <;> simp [quiet_cons, quiet_nil, Event.isSolveOrSave]
  unfold initialise
  split
  · simp [quiet_cons, quiet_nil, Event.isSolveOrSave]
  · simp only []
    split
    · simp [quiet_append, quiet_cons, quiet_nil, Event.isSolveOrSave, hdp]
    · split
      · simp [quiet_append, quiet_cons, quiet_nil, Event.isSolveOrSave, hdp]
      · split
        · simp [quiet_append, quiet_cons, quiet_nil, Event.isSolveOrSave, hdp]
        · simp only [quiet_append]
          refine ⟨⟨⟨hdp, ?_⟩, ?_⟩, ?_⟩
          · split <;> simp [quiet_cons, quiet_nil, Event.isSolveOrSave]
          · split <;> simp [quiet_cons, quiet_nil, Event.isSolveOrSave]
          · split <;> simp [quiet_cons, quiet_nil, Event.isSolveOrSave]

/-- Configuration fields fixed by the command line. -/
theorem initialise_config (env : Env) (cl : CommandLine) (ev : List Event) (cfg : Config)
    (h : initialise env cl = (ev, Sum.inr cfg)) :
    cfg.isTestRun = cl.test ∧ cfg.calibrationFlags = calibrationFlags cl
      ∧ cfg.aspectRatio = aspectRatio cl ∧ cfg.outputFile = cl.outfile := by
  unfold initialise at h
  split at h
  · simp at h
  · simp only [] at h
    split at h
    · simp at h
    · split at h
      · simp at h
      · split at h
        · simp at h
        · simp only [Prod.mk.injEq, Sum.inr.injEq] at h
          obtain ⟨_, rfl⟩ := h
          simp


theorem showFrames_quiet (env : Env) (allIds : List (List Int)) (cc : List (List Point2f))
    (frames : List Nat) : ∀ k : Nat, Quiet (showFrames env allIds cc frames k) := by
  induction frames with
  | nil =>
    intro k
    simp [showFrames, quiet_nil]
  | cons frame rest ih =>
    intro k
    simp only [showFrames]
    split <;> split <;>
      simp [quiet_append, quiet_cons, quiet_nil, Event.isSolveOrSave, ih]

/-- Events of `calibrateCameraCharuco2`: size reports and at most the solver call. -/
theorem calibrateCameraCharuco2_events (env : Env) (cc : List (List Point2f))
    (ci : List (List Int)) (board : CharucoBoard) (sz : Size) (cm dc : Mat) (flags iFix : Int) :
    ∀ e ∈ (calibrateCameraCharuco2 env cc ci board sz cm dc flags iFix).1,
      (∃ s, e = Event.cout s) ∨ (∃ objs, e = Event.calibrateCameraRO objs cc sz iFix cm dc flags) := by
  intro e he
  unfold calibrateCameraCharuco2 at he
  split at he
  · split at he
    · simp at he
    · simp only [List.mem_append, List.mem_map, List.mem_singleton] at he
      rcases he with ⟨p, _, rfl⟩ | rfl
      · exact Or.inl ⟨_, rfl⟩
      · exact Or.inr ⟨_, rfl⟩
  · simp at he

theorem calibrateCameraCharuco2_silent_on_failure (env : Env) (cc : List (List Point2f))
    (ci : List (List Int)) (board : CharucoBoard) (sz : Size) (cm dc : Mat) (flags iFix : Int)
    (h : (calibrateCameraCharuco2 env cc ci board sz cm dc flags iFix).2 = none) :
    (calibrateCameraCharuco2 env cc ci board sz cm dc flags iFix).1 = [] := by
  by_cases hc : ci.length > 0 ∧ ci.length = cc.length
  · simp only [calibrateCameraCharuco2, if_pos hc] at h ⊢
    cases hb : buildObjPoints board cc ci with
    | none => rfl
    | some objs => simp [hb] at h
  · simp only [calibrateCameraCharuco2, if_neg hc]

theorem secondPass_length (env : Env) (cfg : Config) (st : Acquired) :
    (secondPass env cfg st).length = st.allCorners.length := by
  simp [secondPass, interpolateAll]

/-- Events of the part of `main` after `saveCameraParams`: writes, messages and
display calls. -/
theorem afterSave_events (env : Env) (cfg : Config) (st : Acquired) (cal : Calibration)
    (saved : Bool × List (String × Value)) (k : Nat) :
    ∀ e ∈ afterSave env cfg st cal saved k,
      e.isArucoCall = false ∧ e.isCharucoCall = false ∧ e.isSaveCall = false
        ∧ e.passedFlags = none := by
  have hshow : ∀ l : List Nat, ∀ e ∈ showFrames env st.allIds
      ((secondPass env cfg st).map (fun c => c.corners)) l k,
      e.isArucoCall = false ∧ e.isCharucoCall = false ∧ e.isSaveCall = false
        ∧ e.passedFlags = none := by
    intro l e he
    have := showFrames_quiet env st.allIds _ l k e he
    cases e <;> simp_all [Event.isSolveOrSave, Event.isArucoCall, Event.isCharucoCall,
      Event.isSaveCall, Event.passedFlags]
  intro e he
  unfold afterSave at he
  simp only [] at he
  split at he
  · simp only [List.mem_append, List.mem_map, List.mem_singleton] at he
    rcases he with ⟨kv, _, rfl⟩ | rfl <;>
      simp [Event.isArucoCall, Event.isCharucoCall, Event.isSaveCall, Event.passedFlags]
  · simp only [List.mem_append, List.mem_map, List.mem_cons] at he
    rcases he with (⟨kv, _, rfl⟩ | h) | h
    · simp [Event.isArucoCall, Event.isCharucoCall, Event.isSaveCall, Event.passedFlags]
    · simp only [List.mem_nil_iff, or_false] at h
      rcases h with rfl | rfl | rfl | rfl | rfl | rfl | rfl <;>
        simp [Event.isArucoCall, Event.isCharucoCall, Event.isSaveCall, Event.passedFlags]
    · split at h
      · exact hshow _ e h
      · cases h

theorem secondPassEvents_events (st : Acquired) :
    ∀ e ∈ secondPassEvents st,
      e.isArucoCall = false ∧ e.isCharucoCall = false ∧ e.isSaveCall = false
        ∧ e.passedFlags = none ∧ e.isSolveOrSave = false := by
  intro e he
  unfold secondPassEvents at he
  simp only [List.mem_map] at he
  obtain ⟨i, _, rfl⟩ := he
  simp [Event.isArucoCall, Event.isCharucoCall, Event.isSaveCall, Event.passedFlags,
    Event.isSolveOrSave]

theorem charucoResult_events (env : Env) (cfg : Config) (st : Acquired) :
    ∀ e ∈ (charucoResult env cfg st).1,
      e.isArucoCall = false ∧ e.isCharucoCall = false ∧ e.isSaveCall = false
        ∧ (e.passedFlags = none ∨ e.passedFlags = some cfg.calibrationFlags) := by
  intro e he
  rcases calibrateCameraCharuco2_events _ _ _ _ _ _ _ _ _ e he with ⟨s, rfl⟩ | ⟨o, rfl⟩ <;>
    simp [Event.isArucoCall, Event.isCharucoCall, Event.isSaveCall, Event.passedFlags]

theorem calibrate_no_capture (env : Env) (cfg : Config) (st : Acquired) (k : Nat)
    (h : st.allIds.length = 0) :
    calibrate env cfg st k =
      ([Event.cerr "Not enough captures for calibration\n"], Outcome.exit 0) := by
  simp [calibrate, h]

theorem calibrate_few_frames (env : Env) (cfg : Config) (st : Acquired) (k : Nat)
    (h1 : 1 ≤ st.allIds.length) (h4 : st.allCorners.length < 4) :
    calibrate env cfg st k =
      ([arucoCall cfg st] ++ secondPassEvents st
        ++ [Event.cerr "Not enough corners for calibration\n"], Outcome.exit 0) := by
  have hlt : ¬ st.allIds.length < 1 := by omega
  simp [calibrate, hlt, secondPass_length, h4]

theorem calibrate_assertion (env : Env) (cfg : Config) (st : Acquired) (k : Nat)
    (h1 : 1 ≤ st.allIds.length) (h4 : 4 ≤ st.allCorners.length)
    (hr : (charucoResult env cfg st).2 = none) :
    calibrate env cfg st k =
      ([arucoCall cfg st] ++ secondPassEvents st ++ [charucoCall env cfg st],
        Outcome.assertionFailure) := by
  have hlt : ¬ st.allIds.length < 1 := by omega
  have h4' : ¬ st.allCorners.length < 4 := by omega
  have hev : (charucoResult env cfg st).1 = [] :=
    calibrateCameraCharuco2_silent_on_failure _ _ _ _ _ _ _ _ _ hr
  simp [calibrate, hlt, secondPass_length, h4', hr, hev]

theorem calibrate_saves (env : Env) (cfg : Config) (st : Acquired) (k : Nat)
    (h1 : 1 ≤ st.allIds.length) (h4 : 4 ≤ st.allCorners.length) (cal : Calibration)
    (hr : (charucoResult env cfg st).2 = some cal) :
    calibrate env cfg st k =
      ([arucoCall cfg st] ++ secondPassEvents st ++ [charucoCall env cfg st]
        ++ (charucoResult env cfg st).1 ++ [saveCall cfg st cal]
        ++ afterSave env cfg st cal
            (saveCameraParams env cfg.outputFile st.imgSize cfg.aspectRatio
              cfg.calibrationFlags cal.cameraMatrix cal.distCoeffs cal.error) k,
        Outcome.exit 0) := by
  have hlt : ¬ st.allIds.length < 1 := by omega
  have h4' : ¬ st.allCorners.length < 4 := by omega
  simp [calibrate, hlt, secondPass_length, h4', hr]

/-! ## Retained frames -/

theorem cameraLoop_aligned (env : Env) (cfg : Config) (frames : List Image) :
    ∀ (k : Nat) (st : Acquired), st.allCorners.length = st.allIds.length →
      (cameraLoop env cfg frames k st).2.1.allCorners.length
        = (cameraLoop env cfg frames k st).2.1.allIds.length := by
  induction frames with
  | nil =>
    intro k st h
    simpa [cameraLoop] using h
  | cons image frames ih =>
    intro k st h
    simp only [cameraLoop]
    split
    · simpa using h
    · split
      · exact ih _ _ (by simp [Acquired.push, h])
      · exact ih _ _ h

theorem imageListLoop_aligned (env : Env) (cfg : Config) (names : List String) :
    ∀ (k : Nat) (st : Acquired), st.allCorners.length = st.allIds.length →
      (imageListLoop env cfg names k st).2.1.allCorners.length
        = (imageListLoop env cfg names k st).2.1.allIds.length := by
  induction names with
  | nil =>
    intro k st h
    simpa [imageListLoop] using h
  | cons imageName names ih =>
    intro k st h
    simp only [imageListLoop]
    split
    · split
      · simpa using h
      · exact ih _ _ h
    · exact ih _ _ (by simp [Acquired.push, h])

theorem acquire_aligned (env : Env) (cfg : Config) :
    (acquire env cfg).2.1.allCorners.length = (acquire env cfg).2.1.allIds.length := by
  unfold acquire
  split
  · exact cameraLoop_aligned env cfg _ _ _ rfl
  · exact imageListLoop_aligned env cfg _ _ _ rfl

theorem imageListLoop_test (env : Env) (cfg : Config) (htest : cfg.isTestRun = true)
    (names : List String) :
    ∀ (k : Nat) (st : Acquired), (imageListLoop env cfg names k st).2.1 = st := by
  induction names with
  | nil =>
    intro k st
    simp [imageListLoop]
  | cons imageName names ih =>
    intro k st
    simp only [imageListLoop, htest, if_true]
    split
    · rfl
    · exact ih _ _

theorem imageListLoop_retains (env : Env) (cfg : Config) (htest : cfg.isTestRun = false)
    (names : List String) :
    ∀ (k : Nat) (st : Acquired),
      (imageListLoop env cfg names k st).2.1.allCorners
          = st.allCorners ++ names.map (fun name => (detect env cfg (env.imread name)).2.corners)
      ∧ (imageListLoop env cfg names k st).2.1.allIds
          = st.allIds ++ names.map (fun name => (detect env cfg (env.imread name)).2.ids)
      ∧ (imageListLoop env cfg names k st).2.1.allImgs
          = st.allImgs ++ names.map env.imread := by
  induction names with
  | nil =>
    intro k st
    simp [imageListLoop]
  | cons imageName names ih =>
    intro k st
    simp only [imageListLoop, htest]
    obtain ⟨h1, h2, h3⟩ := ih k (st.push (detect env cfg (env.imread imageName)).2.corners
      (detect env cfg (env.imread imageName)).2.ids (env.imread imageName))
    simp only [Bool.false_eq_true, if_false]
    refine ⟨?_, ?_, ?_⟩
    · rw [h1]; simp [Acquired.push]
    · rw [h2]; simp [Acquired.push]
    · rw [h3]; simp [Acquired.push]

/-! ## Object points -/

theorem objPointsOfIds_eq_none_iff (board : CharucoBoard) (ids : List Int) :
    objPointsOfIds board ids = none ↔
      ∃ id ∈ ids, id < 0 ∨ (board.chessboardCorners.length : Int) ≤ id := by
  induction ids with
  | nil => simp [objPointsOfIds]
  | cons pointId rest ih =>
    unfold objPointsOfIds
    by_cases h : 0 ≤ pointId ∧ pointId < (board.chessboardCorners.length : Int)
    · rw [dif_pos h]
      cases hrest : objPointsOfIds board rest with
      | none =>
        have := ih.mp hrest
        obtain ⟨id, hid, hbad⟩ := this
        simp only [true_iff]
        exact ⟨id, List.mem_cons_of_mem _ hid, hbad⟩
      | some ps =>
        simp only [false_iff, reduceCtorEq]
        rintro ⟨id, hid, hbad⟩
        rcases List.mem_cons.mp hid with rfl | hmem
        · omega
        · have : objPointsOfIds board rest = none := ih.mpr ⟨id, hmem, hbad⟩
          rw [hrest] at this
          cases this
    · rw [dif_neg h]
      simp only [true_iff]
      refine ⟨pointId, List.mem_cons_self _ _, ?_⟩
      omega

theorem objPointsOfIds_eq_some (board : CharucoBoard) (ids : List Int) :
    ∀ ps, objPointsOfIds board ids = some ps →
      ps.length = ids.length ∧
      ∀ (j : Nat) (id : Int), ids[j]? = some id →
        ps[j]? = board.chessboardCorners[id.toNat]? ∧ 0 ≤ id
          ∧ id.toNat < board.chessboardCorners.length := by
  induction ids with
  | nil =>
    intro ps h
    simp [objPointsOfIds] at h
    subst h
    simp
  | cons pointId rest ih =>
    intro ps h
    unfold objPointsOfIds at h
    by_cases hr : 0 ≤ pointId ∧ pointId < (board.chessboardCorners.length : Int)
    · rw [dif_pos hr] at h
      cases hrest : objPointsOfIds board rest with
      | none => rw [hrest] at h; cases h
      | some qs =>
        rw [hrest] at h
        simp only [Option.some.injEq] at h
        subst h
        obtain ⟨hlen, hel⟩ := ih qs hrest
        refine ⟨by simp [hlen], ?_⟩
        intro j id hj
        cases j with
        | zero =>
          simp only [List.getElem?_cons_zero, Option.some.injEq] at hj
          subst hj
          have hlt : pointId.toNat < board.chessboardCorners.length := by omega
          refine ⟨?_, hr.1, hlt⟩
          simp [List.getElem?_eq_getElem hlt]
        | succ j =>
          simp only [List.getElem?_cons_succ] at hj ⊢
          exact hel j id hj
    · rw [dif_neg hr] at h
      cases h

/-- The loop over the frames fails exactly when some frame breaks a `CV_Assert`
of line 201 or 206. -/
theorem buildObjPoints_eq_none_iff (board : CharucoBoard) :
    ∀ (cc : List (List Point2f)) (ci : List (List Int)), ci.length = cc.length →
      (buildObjPoints board cc ci = none ↔
        ∃ (i : Nat) (ids : List Int) (c : List Point2f), ci[i]? = some ids ∧ cc[i]? = some c ∧
          (ids.length = 0 ∨ c.length ≠ ids.length
            ∨ ∃ id ∈ ids, id < 0 ∨ (board.chessboardCorners.length : Int) ≤ id)) := by
  intro cc
  induction cc with
  | nil =>
    intro ci hlen
    have : ci = [] := List.length_eq_zero.mp (by simpa using hlen)
    subst this
    simp [buildObjPoints]
  | cons c cs ih =>
    intro ci hlen
    cases ci with
    | nil => simp at hlen
    | cons ids is =>
      have hlen' : is.length = cs.length := by simpa using hlen
      have ih' := ih is hlen'
      unfold buildObjPoints
      simp only []
      by_cases hf : ids.length > 0 ∧ ids.length = c.length
      · rw [if_pos hf]
        cases hobj : objPointsOfIds board ids with
        | none =>
          simp only [true_iff]
          refine ⟨0, ids, c, by simp, by simp, Or.inr (Or.inr ?_)⟩
          exact (objPointsOfIds_eq_none_iff board ids).mp hobj
        | some ps =>
          simp only []
          cases hrest : buildObjPoints board cs is with
          | none =>
            simp only [true_iff]
            obtain ⟨i, ids', c', h1, h2, h3⟩ := ih'.mp hrest
            exact ⟨i + 1, ids', c', by simpa using h1, by simpa using h2, h3⟩
          | some rest =>
            simp only [false_iff, reduceCtorEq]
            rintro ⟨i, ids', c', h1, h2, h3⟩
            cases i with
            | zero =>
              simp only [List.getElem?_cons_zero, Option.some.injEq] at h1 h2
              subst h1 h2
              rcases h3 with h3 | h3 | h3
              · omega
              · omega
              · have := (objPointsOfIds_eq_none_iff board ids).mpr h3
                rw [hobj] at this
                cases this
            | succ i =>
              simp only [List.getElem?_cons_succ] at h1 h2
              have := ih'.mpr ⟨i, ids', c', h1, h2, h3⟩
              rw [hrest] at this
              cases this
      · rw [if_neg hf]
        simp only [true_iff]
        refine ⟨0, ids, c, by simp, by simp, ?_⟩
        by_cases h0 : ids.length = 0
        · exact Or.inl h0
        · refine Or.inr (Or.inl ?_)
          intro hc
          exact hf ⟨by omega, hc.symm⟩

theorem buildObjPoints_eq_some (board : CharucoBoard) :
    ∀ (cc : List (List Point2f)) (ci : List (List Int)) (objs : List (List Point3f)),
      buildObjPoints board cc ci = some objs →
      objs.length = ci.length ∧
      ∀ (i : Nat) (ids : List Int), ci[i]? = some ids →
        ∃ pts : List Point3f, objs[i]? = some pts ∧ pts.length = ids.length ∧
          ∀ (j : Nat) (id : Int), ids[j]? = some id →
            pts[j]? = board.chessboardCorners[id.toNat]? ∧ 0 ≤ id
              ∧ id.toNat < board.chessboardCorners.length := by
  intro cc ci
  induction ci generalizing cc with
  | nil =>
    intro objs h
    cases cc <;> simp [buildObjPoints] at h <;> subst h <;> simp
  | cons ids is ih =>
    intro objs h
    cases cc with
    | nil => simp [buildObjPoints] at h
    | cons c cs =>
      unfold buildObjPoints at h
      simp only [] at h
      split at h
      · cases hobj : objPointsOfIds board ids with
        | none => rw [hobj] at h; cases h
        | some ps =>
          rw [hobj] at h
          simp only [] at h
          cases hrest : buildObjPoints board cs is with
          | none => rw [hrest] at h; cases h
          | some rest =>
            rw [hrest] at h
            simp only [Option.some.injEq] at h
            subst h
            obtain ⟨hlen, hel⟩ := ih cs rest hrest
            refine ⟨by simp [hlen], ?_⟩
            intro i ids' hi
            cases i with
            | zero =>
              simp only [List.getElem?_cons_zero, Option.some.injEq] at hi
              subst hi
              exact ⟨ps, by simp, objPointsOfIds_eq_some board ids ps hobj⟩
            | succ i =>
              simp only [List.getElem?_cons_succ] at hi ⊢
              exact hel i ids' hi
      · cases h

/-! ## Runs of `main` -/

theorem quiet_event (e : Event) (h : e.isSolveOrSave = false) :
    e.isArucoCall = false ∧ e.isCharucoCall = false ∧ e.isSaveCall = false
      ∧ e.passedFlags = none := by
  cases e <;> simp_all [Event.isSolveOrSave, Event.isArucoCall, Event.isCharucoCall,
    Event.isSaveCall, Event.passedFlags]

theorem countP_eq_zero_of_forall {p : Event → Bool} {t : List Event}
    (h : ∀ e ∈ t, p e = false) : t.countP p = 0 := by
  rw [List.countP_eq_zero]
  intro e he
  simp [h e he]

theorem calibrate_arucoCalls (env : Env) (cfg : Config) (st : Acquired) (k : Nat)
    (hn : 1 ≤ st.allIds.length) :
    (calibrate env cfg st k).1.countP Event.isArucoCall = 1 := by
  have hA : (arucoCall cfg st).isArucoCall = true := rfl
  have hC : (charucoCall env cfg st).isArucoCall = false := rfl
  have hI : (secondPassEvents st).countP Event.isArucoCall = 0 :=
    countP_eq_zero_of_forall (fun e he => (secondPassEvents_events st e he).1)
  have hR : (charucoResult env cfg st).1.countP Event.isArucoCall = 0 :=
    countP_eq_zero_of_forall (fun e he => (charucoResult_events env cfg st e he).1)
  by_cases h4 : st.allCorners.length < 4
  · rw [calibrate_few_frames env cfg st k hn h4]
    have hE : ∀ s, (Event.cerr s).isArucoCall = false := fun _ => rfl
    simp [List.countP_append, List.countP_cons, hA, hI, hE]
  · have h4' : 4 ≤ st.allCorners.length := by omega
    cases hr : (charucoResult env cfg st).2 with
    | none =>
      rw [calibrate_assertion env cfg st k hn h4' hr]
      simp [List.countP_append, List.countP_cons, hA, hC, hI]
    | some cal =>
      rw [calibrate_saves env cfg st k hn h4' cal hr]
      have hS : (saveCall cfg st cal).isArucoCall = false := rfl
      have hT := countP_eq_zero_of_forall (p := Event.isArucoCall)
        (fun e he => (afterSave_events env cfg st cal
          (saveCameraParams env cfg.outputFile st.imgSize cfg.aspectRatio
            cfg.calibrationFlags cal.cameraMatrix cal.distCoeffs cal.error) k e he).1)
      simp [List.countP_append, List.countP_cons, hA, hC, hI, hR, hS, hT]

theorem main_of_test (env : Env) (cl : CommandLine) (ev : List Event) (cfg : Config)
    (hinit : initialise env cl = (ev, Sum.inr cfg)) (htest : cl.test = true) :
    main env cl =
      (ev ++ (acquire env cfg).1 ++ [Event.cout "Test run finished\n"], Outcome.exit 0) := by
  have hc := (initialise_config env cl ev cfg hinit).1
  simp [main, hinit, hc, htest]

theorem main_of_run (env : Env) (cl : CommandLine) (ev : List Event) (cfg : Config)
    (hinit : initialise env cl = (ev, Sum.inr cfg)) (htest : cl.test = false) :
    main env cl =
      (ev ++ (acquire env cfg).1
        ++ (calibrate env cfg (acquire env cfg).2.1 (acquire env cfg).2.2).1,
       (calibrate env cfg (acquire env cfg).2.1 (acquire env cfg).2.2).2) := by
  have hc := (initialise_config env cl ev cfg hinit).1
  simp [main, hinit, hc, htest]

theorem initialise_events_quiet (env : Env) (cl : CommandLine) (ev : List Event) (cfg : Config)
    (hinit : initialise env cl = (ev, Sum.inr cfg)) : Quiet ev := by
  have := initialise_quiet env cl
  rw [hinit] at this
  exact this


theorem calibrateCameraCharuco2_eq_none_iff (env : Env) (cc : List (List Point2f))
    (ci : List (List Int)) (board : CharucoBoard) (sz : Size) (cm dc : Mat) (flags iFix : Int) :
    (calibrateCameraCharuco2 env cc ci board sz cm dc flags iFix).2 = none ↔
      (ci = [] ∨ ci.length ≠ cc.length
        ∨ (∃ (i : Nat) (ids : List Int) (c : List Point2f),
            ci[i]? = some ids ∧ cc[i]? = some c ∧ (ids.length = 0 ∨ c.length ≠ ids.length))
        ∨ (∃ ids ∈ ci, ∃ id ∈ ids, id < 0 ∨ (board.chessboardCorners.length : Int) ≤ id)) := by
  by_cases hne : ci = []
  · subst hne
    simp [calibrateCameraCharuco2]
  by_cases hlen : ci.length = cc.length
  · have hpos : ci.length > 0 := List.length_pos.mpr hne
    have hb := buildObjPoints_eq_none_iff board cc ci hlen
    have hval : (calibrateCameraCharuco2 env cc ci board sz cm dc flags iFix).2 = none
        ↔ buildObjPoints board cc ci = none := by
      have hcond : ci.length > 0 ∧ ci.length = cc.length := ⟨hpos, hlen⟩
      simp only [calibrateCameraCharuco2, if_pos hcond]
      cases buildObjPoints board cc ci <;> simp
    rw [hval, hb]
    constructor
    · rintro ⟨i, ids, c, h1, h2, h3 | h3 | ⟨id, hid, hbad⟩⟩
      · exact Or.inr (Or.inr (Or.inl ⟨i, ids, c, h1, h2, Or.inl h3⟩))
      · exact Or.inr (Or.inr (Or.inl ⟨i, ids, c, h1, h2, Or.inr h3⟩))
      · exact Or.inr (Or.inr (Or.inr ⟨ids, List.getElem?_mem h1, id, hid, hbad⟩))
    · rintro (h | h | ⟨i, ids, c, h1, h2, h3⟩ | ⟨ids, hids, id, hid, hbad⟩)
      · exact absurd h hne
      · exact absurd hlen h
      · rcases h3 with h3 | h3
        · exact ⟨i, ids, c, h1, h2, Or.inl h3⟩
        · exact ⟨i, ids, c, h1, h2, Or.inr (Or.inl h3)⟩
      · obtain ⟨i, hi, hget⟩ := List.getElem_of_mem hids
        have hi' : i < cc.length := by omega
        refine ⟨i, ids, cc[i], ?_, List.getElem?_eq_getElem hi', Or.inr (Or.inr ⟨id, hid, hbad⟩)⟩
        rw [List.getElem?_eq_getElem hi, hget]
  · have : ¬ (ci.length > 0 ∧ ci.length = cc.length) := fun h => hlen h.2
    simp [calibrateCameraCharuco2, this, hlen]

theorem quiet_not_write (e : Event) (h : e.isSolveOrSave = false) : e.isFileWrite = false := by
  cases e <;> simp_all [Event.isSolveOrSave, Event.isFileWrite]

/-- A frame without interpolated corners fails the checks of the calibration. -/
theorem charucoResult_none_of_empty_frame (env : Env) (cfg : Config) (st : Acquired)
    (h : ∃ c ∈ secondPass env cfg st, c.corners = []) :
    (charucoResult env cfg st).2 = none := by
  obtain ⟨c, hc, hempty⟩ := h
  obtain ⟨i, hi, hget⟩ := List.getElem_of_mem hc
  unfold charucoResult
  rw [calibrateCameraCharuco2_eq_none_iff]
  refine Or.inr (Or.inr (Or.inl ⟨i, c.ids, c.corners, ?_, ?_, ?_⟩))
  · simp [List.getElem?_eq_getElem hi, hget]
  · simp [List.getElem?_eq_getElem hi, hget]
  · rw [hempty]
    by_cases h0 : c.ids.length = 0
    · exact Or.inl h0
    · exact Or.inr (fun h => h0 h.symm)

/-- The call of `calibrateCameraCharuco2` is in the trace of `calibrate` exactly
from four frames on. -/
theorem calibrate_charucoCall_iff (env : Env) (cfg : Config) (st : Acquired) (k : Nat)
    (hal : st.allCorners.length = st.allIds.length) :
    (∃ e ∈ (calibrate env cfg st k).1, e.isCharucoCall = true) ↔ 4 ≤ st.allIds.length := by
  have hE : ∀ s, (Event.cerr s).isCharucoCall = false := fun _ => rfl
  have hA : (arucoCall cfg st).isCharucoCall = false := rfl
  have hC : (charucoCall env cfg st).isCharucoCall = true := rfl
  have hI := fun e he => (secondPassEvents_events st e he).2.1
  by_cases h0 : st.allIds.length = 0
  · rw [calibrate_no_capture env cfg st k h0]
    simp [hE, h0]
  have h1 : 1 ≤ st.allIds.length := by omega
  by_cases h4 : st.allCorners.length < 4
  · rw [calibrate_few_frames env cfg st k h1 h4]
    constructor
    · rintro ⟨e, he, hp⟩
      simp only [List.mem_append, List.mem_singleton] at he
      rcases he with (rfl | he) | rfl
      · rw [hA] at hp; cases hp
      · rw [hI e he] at hp; cases hp
      · rw [hE] at hp; cases hp
    · intro h; omega
  · have h4' : 4 ≤ st.allCorners.length := by omega
    constructor
    · intro _; omega
    · intro _
      refine ⟨charucoCall env cfg st, ?_, hC⟩
      cases hr : (charucoResult env cfg st).2 with
      | none =>
        rw [calibrate_assertion env cfg st k h1 h4' hr]
        simp
      | some cal =>
        rw [calibrate_saves env cfg st k h1 h4' cal hr]
        simp

/-- The call of `saveCameraParams` is in the trace of `calibrate` exactly when
there are four frames and `calibrateCameraCharuco2` returns. -/
theorem calibrate_saveCall_iff (env : Env) (cfg : Config) (st : Acquired) (k : Nat)
    (hal : st.allCorners.length = st.allIds.length) :
    (∃ e ∈ (calibrate env cfg st k).1, e.isSaveCall = true)
      ↔ 4 ≤ st.allIds.length ∧ (charucoResult env cfg st).2 ≠ none := by
  have hE : ∀ s, (Event.cerr s).isSaveCall = false := fun _ => rfl
  have hA : (arucoCall cfg st).isSaveCall = false := rfl
  have hC : (charucoCall env cfg st).isSaveCall = false := rfl
  have hI := fun e he => (secondPassEvents_events st e he).2.2.1
  by_cases h0 : st.allIds.length = 0
  · rw [calibrate_no_capture env cfg st k h0]
    simp [hE, h0]
  have h1 : 1 ≤ st.allIds.length := by omega
  by_cases h4 : st.allCorners.length < 4
  · rw [calibrate_few_frames env cfg st k h1 h4]
    constructor
    · rintro ⟨e, he, hp⟩
      simp only [List.mem_append, List.mem_singleton] at he
      rcases he with (rfl | he) | rfl
      · rw [hA] at hp; cases hp
      · rw [hI e he] at hp; cases hp
      · rw [hE] at hp; cases hp
    · intro h; omega
  · have h4' : 4 ≤ st.allCorners.length := by omega
    cases hr : (charucoResult env cfg st).2 with
    | none =>
      rw [calibrate_assertion env cfg st k h1 h4' hr]
      constructor
      · rintro ⟨e, he, hp⟩
        simp only [List.mem_append, List.mem_singleton] at he
        rcases he with (rfl | he) | rfl
        · rw [hA] at hp; cases hp
        · rw [hI e he] at hp; cases hp
        · rw [hC] at hp; cases hp
      · rintro ⟨_, h⟩
        exact absurd rfl h
    | some cal =>
      rw [calibrate_saves env cfg st k h1 h4' cal hr]
      constructor
      · intro _
        exact ⟨by omega, by simp⟩
      · intro _
        exact ⟨saveCall cfg st cal, by simp, rfl⟩

/-- Events of `calibrate` pass the configured flags. -/
theorem calibrate_flags (env : Env) (cfg : Config) (st : Acquired) (k : Nat) :
    ∀ e ∈ (calibrate env cfg st k).1,
      e.passedFlags = none ∨ e.passedFlags = some cfg.calibrationFlags := by
  have hA : (arucoCall cfg st).passedFlags = some cfg.calibrationFlags := rfl
  have hC : (charucoCall env cfg st).passedFlags = some cfg.calibrationFlags := rfl
  have hI := fun e he => (secondPassEvents_events st e he).2.2.2.1
  have hR := fun e he => (charucoResult_events env cfg st e he).2.2.2
  intro e he
  by_cases h0 : st.allIds.length = 0
  · rw [calibrate_no_capture env cfg st k h0] at he
    simp only [List.mem_singleton] at he
    subst he
    exact Or.inl rfl
  have h1 : 1 ≤ st.allIds.length := by omega
  by_cases h4 : st.allCorners.length < 4
  · rw [calibrate_few_frames env cfg st k h1 h4] at he
    simp only [List.mem_append, List.mem_singleton] at he
    rcases he with (rfl | he) | rfl
    · exact Or.inr hA
    · exact Or.inl (hI e he)
    · exact Or.inl rfl
  · have h4' : 4 ≤ st.allCorners.length := by omega
    cases hr : (charucoResult env cfg st).2 with
    | none =>
      rw [calibrate_assertion env cfg st k h1 h4' hr] at he
      simp only [List.mem_append, List.mem_singleton] at he
      rcases he with (rfl | he) | rfl
      · exact Or.inr hA
      · exact Or.inl (hI e he)
      · exact Or.inr hC
    | some cal =>
      rw [calibrate_saves env cfg st k h1 h4' cal hr] at he
      simp only [List.mem_append, List.mem_singleton] at he
      rcases he with ((((rfl | he) | rfl) | he) | rfl) | he
      · exact Or.inr hA
      · exact Or.inl (hI e he)
      · exact Or.inr hC
      · exact hR e he
      · exact Or.inr rfl
      · exact Or.inl (afterSave_events env cfg st cal _ k e he).2.2.2

/-- An event of a run that is no setup or acquisition event is an event of
`calibrate`. -/
theorem main_run_exists_iff (env : Env) (cl : CommandLine) (ev : List Event) (cfg : Config)
    (hinit : initialise env cl = (ev, Sum.inr cfg)) (htest : cl.test = false)
    (p : Event → Bool) (hp : ∀ e, e.isSolveOrSave = false → p e = false) :
    (∃ e ∈ (main env cl).1, p e = true)
      ↔ ∃ e ∈ (calibrate env cfg (acquire env cfg).2.1 (acquire env cfg).2.2).1, p e = true := by
  have hev := initialise_events_quiet env cl ev cfg hinit
  have hacq := acquire_quiet env cfg
  rw [main_of_run env cl ev cfg hinit htest]
  constructor
  · rintro ⟨e, he, hpe⟩
    simp only [List.mem_append] at he
    rcases he with (he | he) | he
    · rw [hp e (hev e he)] at hpe; cases hpe
    · rw [hp e (hacq e he)] at hpe; cases hpe
    · exact ⟨e, he, hpe⟩
  · rintro ⟨e, he, hpe⟩
    exact ⟨e, by simp [he], hpe⟩

/-- The events of reading the detector parameters. -/
theorem loadDetectorParameters_events (env : Env) (cl : CommandLine) :
    (loadDetectorParameters env cl).1 = cl.dp.toList.map Event.fileRead := by
  unfold loadDetectorParameters
  cases cl.dp <;> simp

/-- Bits of a number below 16. -/
theorem testBit_small (n : Nat) (hn : n < 16) (k : Nat) (h : (Int.ofNat n).testBit k = true) :
    k < 4 := by
  by_contra hk
  have hk4 : 4 ≤ k := by omega
  have : n < 2 ^ k := lt_of_lt_of_le hn (by
    calc 16 = 2 ^ 4 := by norm_num
      _ ≤ 2 ^ k := Nat.pow_le_pow_right (by norm_num) hk4)
  have hf : n.testBit k = false := Nat.testBit_lt_two_pow this
  simp [Int.testBit, hf] at h

/-! ## Marshalling for the marker-only calibration -/

/-- Reading every index of a list gives the list back. -/
theorem range_map_getD {α : Type} (l : List α) (d : α) :
    (List.range l.length).map (fun i => l.getD i d) = l := by
  apply List.ext_getElem
  · simp
  · intro i h1 h2
    simp at h1
    simp [List.getD_eq_getElem?_getD, List.getElem?_eq_getElem h1]

/-- The same with `l[i]?.getD d` for the read. -/
theorem range_map_getElem?_getD {α : Type} (l : List α) (d : α) :
    (List.range l.length).map (fun i => l[i]?.getD d) = l := by
  have h := range_map_getD l d
  simpa [List.getD_eq_getElem?_getD] using h

/-- The inner loop of lines 459-462 appends the entries `0 .. n-1` of the frame. -/
theorem marshal_inner (frame : List (List Point2f)) (ids : List Int) (n : Nat) :
    ∀ acc : Marshalled,
      (List.range n).foldl
        (fun acc j =>
          { acc with
            allCornersConcatenated := acc.allCornersConcatenated ++ [frame.getD j []]
            allIdsConcatenated := acc.allIdsConcatenated ++ [ids.getD j 0] })
        acc
      = { allCornersConcatenated :=
            acc.allCornersConcatenated ++ (List.range n).map (fun j => frame.getD j [])
          allIdsConcatenated :=
            acc.allIdsConcatenated ++ (List.range n).map (fun j => ids.getD j 0)
          markerCounterPerFrame := acc.markerCounterPerFrame } := by
  induction n with
  | zero =>
    intro acc
    simp
  | succ n ih =>
    intro acc
    rw [List.range_succ, List.foldl_append, ih]
    simp

/-- The outer loop of lines 457-463 after `m` frames. -/
theorem marshal_outer (allCorners : List (List (List Point2f))) (allIds : List (List Int))
    (m : Nat) :
    (List.range m).foldl
      (fun (acc : Marshalled) (i : Nat) =>
        let frame := allCorners.getD i []
        let acc := { acc with
          markerCounterPerFrame := acc.markerCounterPerFrame ++ [(frame.length : Int)] }
        (List.range frame.length).foldl
          (fun acc j =>
            { acc with
              allCornersConcatenated := acc.allCornersConcatenated ++ [frame.getD j []]
              allIdsConcatenated := acc.allIdsConcatenated ++ [(allIds.getD i []).getD j 0] })
          acc)
      ({ allCornersConcatenated := [], allIdsConcatenated := [],
         markerCounterPerFrame := [] } : Marshalled)
    = { allCornersConcatenated :=
          ((List.range m).map (fun i => allCorners.getD i [])).flatten
        allIdsConcatenated :=
          ((List.range m).map (fun i =>
            (List.range (allCorners.getD i []).length).map
              (fun j => (allIds.getD i []).getD j 0))).flatten
        markerCounterPerFrame :=
          (List.range m).map (fun i => ((allCorners.getD i []).length : Int)) } := by
  induction m with
  | zero => simp
  | succ m ih =>
    rw [List.range_succ, List.foldl_append, ih]
    simp only [List.foldl_cons, List.foldl_nil]
    rw [marshal_inner]
    simp [range_map_getElem?_getD]

/-- The result of the marshalling when every frame has as many ids as marker
corner quadruples. -/
theorem marshal_eq (allCorners : List (List (List Point2f))) (allIds : List (List Int))
    (h : allIds.map List.length = allCorners.map List.length) :
    marshal allCorners allIds
      = { allCornersConcatenated := allCorners.flatten
          allIdsConcatenated := allIds.flatten
          markerCounterPerFrame := allCorners.map (fun c => (c.length : Int)) } := by
  have hlen : allIds.length = allCorners.length := by
    simpa using congrArg List.length h
  unfold marshal
  rw [marshal_outer]
  have h1 := range_map_getD allCorners []
  have h3 : (List.range allCorners.length).map (fun i => ((allCorners.getD i []).length : Int))
      = allCorners.map (fun c => (c.length : Int)) := by
    conv_rhs => rw [← h1]
    simp [List.map_map, Function.comp_def]
  have h2 : (List.range allCorners.length).map (fun i =>
      (List.range (allCorners.getD i []).length).map (fun j => (allIds.getD i []).getD j 0))
      = allIds := by
    apply List.ext_getElem
    · simp [hlen]
    · intro i hi1 hi2
      simp only [List.length_map, List.length_range] at hi1
      have hl : allIds[i].length = allCorners[i].length := by
        have hi : (allIds.map List.length)[i]? = (allCorners.map List.length)[i]? := by rw [h]
        simpa [List.getElem?_eq_getElem hi1, List.getElem?_eq_getElem hi2] using hi
      simp only [List.getElem_map, List.getElem_range]
      have hc : allCorners.getD i [] = allCorners[i] := by
        simp [List.getD_eq_getElem?_getD, List.getElem?_eq_getElem hi1]
      have hid : allIds.getD i [] = allIds[i] := by
        simp [List.getD_eq_getElem?_getD, List.getElem?_eq_getElem hi2]
      rw [hc, hid, ← hl]
      exact range_map_getD _ _
  rw [h1, h2, h3]

/-- The length of a concatenation is the sum of the lengths. -/
theorem length_flatten_cast {α : Type} (l : List (List α)) :
    (l.flatten.length : Int) = (l.map (fun c => (c.length : Int))).sum := by
  induction l with
  | nil => simp
  | cons c l ih =>
    simp only [List.flatten_cons, List.length_append, List.map_cons, List.sum_cons]
    push_cast
    rw [ih]

/-- Splitting a concatenation by the lengths of its pieces gives the pieces. -/
theorem splitByCounter_flatten {α : Type} (l : List (List α)) :
    splitByCounter (l.map (fun c => (c.length : Int))) l.flatten = l := by
  induction l with
  | nil => simp [splitByCounter]
  | cons c l ih => simp [splitByCounter, ih]

/-! ## Frames retained by the two loops -/

/-- The frames the capture loop retains, and the number of `waitKey` calls when
it ends. -/
theorem cameraLoop_retains (env : Env) (cfg : Config) (frames : List Image) :
    ∀ (k : Nat) (st : Acquired),
      (cameraLoop env cfg frames k st).2.1.allImgs
          = st.allImgs ++ framesCaptured env cfg k frames
      ∧ (cameraLoop env cfg frames k st).2.1.allIds
          = st.allIds ++ (framesCaptured env cfg k frames).map
              (fun image => (detect env cfg image).2.ids)
      ∧ (cameraLoop env cfg frames k st).2.1.allCorners
          = st.allCorners ++ (framesCaptured env cfg k frames).map
              (fun image => (detect env cfg image).2.corners)
      ∧ (cameraLoop env cfg frames k st).2.2
          = k + min ((framesBeforeEsc env k frames).length + 1) frames.length := by
  induction frames with
  | nil =>
    intro k st
    simp [cameraLoop, framesCaptured, framesBeforeEsc]
  | cons image frames ih =>
    intro k st
    by_cases hesc : toChar (env.waitKey k) = 27
    · simp [cameraLoop, framesCaptured, framesBeforeEsc, List.enumFrom_cons, hesc]
    · by_cases hc : toChar (env.waitKey k) = 99 ∧ (detect env cfg image).2.ids.length > 0
      · obtain ⟨h1, h2, h3, h4⟩ := ih (k + 1)
          (st.push (detect env cfg image).2.corners (detect env cfg image).2.ids image)
        simp only [cameraLoop]
        rw [if_neg hesc, if_pos hc]
        simp only [h1, h2, h3, h4]
        simp [framesCaptured, framesBeforeEsc, List.enumFrom_cons, hesc, hc, Acquired.push]
        omega
      · obtain ⟨h1, h2, h3, h4⟩ := ih (k + 1) st
        simp only [cameraLoop]
        rw [if_neg hesc, if_neg hc]
        simp only [h1, h2, h3, h4]
        simp [framesCaptured, framesBeforeEsc, List.enumFrom_cons, hesc, hc]
        omega

/-- Every captured frame has a detected marker. -/
theorem framesCaptured_have_ids (env : Env) (cfg : Config) (k : Nat) (frames : List Image) :
    ∀ image ∈ framesCaptured env cfg k frames, 1 ≤ (detect env cfg image).2.ids.length := by
  intro image h
  unfold framesCaptured at h
  simp only [List.mem_map, List.mem_filter, decide_eq_true_eq] at h
  obtain ⟨p, ⟨_, _, hp⟩, rfl⟩ := h
  exact hp

/-- The image size after the image-list loop of a run that is no test run. -/
theorem imageListLoop_imgSize (env : Env) (cfg : Config) (htest : cfg.isTestRun = false)
    (names : List String) :
    ∀ (k : Nat) (st : Acquired),
      (imageListLoop env cfg names k st).2.1.imgSize
        = (names.getLast?.map (fun name => (env.imread name).size)).getD st.imgSize := by
  induction names with
  | nil =>
    intro k st
    simp [imageListLoop]
  | cons imageName names ih =>
    intro k st
    simp only [imageListLoop, htest, Bool.false_eq_true, if_false]
    rw [ih]
    cases names with
    | nil => simp [Acquired.push]
    | cons b l =>
      simp only [List.getLast?_cons_cons]
      rw [List.getLast?_eq_getLast (b :: l) (List.cons_ne_nil b l)]
      simp

/-! ## The claims -/

/-- C1: a command line that passes the `argc` check, the detector-parameter read
and `parser.check()` and gives both a video and an image list makes `main`
print "Can't have both video and image list input" and return 1. The trace is
the read of the parameter file, when `-dp` was given, and the message: no
capture is opened, no list read, nothing detected, calibrated or written. -/
theorem main_rejects_video_with_image_list (env : Env) (cl : CommandLine)
    (hargc : 7 ≤ cl.argc) (hdp : (loadDetectorParameters env cl).2.1 = true)
    (hcheck : cl.check = true) (hv : (video cl).isEmpty = false) (hl : cl.l.isEmpty = false) :
    main env cl =
      (cl.dp.toList.map Event.fileRead
        ++ [Event.cout "Can't have both video and image list input\n"], Outcome.exit 1) := by
  have h7 : ¬ cl.argc < 7 := by omega
  simp [main, initialise, h7, hdp, hcheck, hv, hl, loadDetectorParameters_events]

/-- The sample command line with `-v=x.avi` added is rejected. -/
theorem main_rejects_video_with_image_list_witness :
    main sampleEnv { sampleCommandLine with v := some "x.avi" } =
      ([Event.cout "Can't have both video and image list input\n"], Outcome.exit 1) :=
  main_rejects_video_with_image_list sampleEnv { sampleCommandLine with v := some "x.avi" }
    (by decide) (by rfl) (by rfl) (by decide) (by decide)

/-- C2: in a run that reaches the acquisition and is no test run, with no frame
retained `main` prints "Not enough captures for calibration" and returns 0, and
its trace has no calibration call, no `saveCameraParams` call and no write;
with at least one frame retained `calibrateCameraAruco` is called exactly
once. -/
theorem first_gate_needs_one_frame (env : Env) (cl : CommandLine) (ev : List Event)
    (cfg : Config) (hinit : initialise env cl = (ev, Sum.inr cfg)) (htest : cl.test = false) :
    ((acquire env cfg).2.1.allIds.length = 0 →
        main env cl =
          (ev ++ (acquire env cfg).1 ++ [Event.cerr "Not enough captures for calibration\n"],
            Outcome.exit 0)
        ∧ Quiet (main env cl).1)
    ∧ (1 ≤ (acquire env cfg).2.1.allIds.length →
        (main env cl).1.countP Event.isArucoCall = 1) := by
  have hev := initialise_events_quiet env cl ev cfg hinit
  have hacq := acquire_quiet env cfg
  constructor
  · intro h0
    have hm : main env cl =
        (ev ++ (acquire env cfg).1 ++ [Event.cerr "Not enough captures for calibration\n"],
          Outcome.exit 0) := by
      rw [main_of_run env cl ev cfg hinit htest, calibrate_no_capture env cfg _ _ h0]
    refine ⟨hm, ?_⟩
    rw [hm]
    simp [quiet_append, quiet_cons, quiet_nil, hev, hacq, Event.isSolveOrSave]
  · intro h1
    rw [main_of_run env cl ev cfg hinit htest]
    have hz1 : ev.countP Event.isArucoCall = 0 :=
      countP_eq_zero_of_forall (fun e he => (quiet_event e (hev e he)).1)
    have hz2 : (acquire env cfg).1.countP Event.isArucoCall = 0 :=
      countP_eq_zero_of_forall (fun e he => (quiet_event e (hacq e he)).1)
    simp only [List.countP_append, hz1, hz2, zero_add]
    exact calibrate_arucoCalls env cfg _ _ h1

/-- A video that delivers no frame stops at the first gate; the list of four
images passes it with one marker-only calibration. -/
theorem first_gate_needs_one_frame_witness :
    main sampleEnv { sampleCommandLine with l := "", v := some "x.avi" } =
      ([Event.cout "Reading from video file x.avi\n", Event.openVideo "x.avi",
        Event.grab false, Event.cerr "Not enough captures for calibration\n"], Outcome.exit 0)
    ∧ (main sampleEnv sampleCommandLine).1.countP Event.isArucoCall = 1 :=
  ⟨((first_gate_needs_one_frame sampleEnv { sampleCommandLine with l := "", v := some "x.avi" }
      _ _ rfl rfl).1 (by decide)).1,
   (first_gate_needs_one_frame sampleEnv sampleCommandLine _ _ rfl rfl).2 (by decide)⟩

/-- C3, as stated, fails: with the image list `list2.yml` four frames are
retained, each with a detected marker, yet the trace of `main` has no call of
`saveCameraParams`: the frame of `edge.png` has no interpolated corner, the
`CV_Assert` of `calibrateCameraCharuco2` fails and the run ends there. -/
theorem save_not_reached_with_four_frames :
    ∃ (ev : List Event) (cfg : Config),
      initialise sampleEnv { sampleCommandLine with l := "list2.yml" } = (ev, Sum.inr cfg)
      ∧ ({ sampleCommandLine with l := "list2.yml" } : CommandLine).test = false
      ∧ (acquire sampleEnv cfg).2.1.allIds.length = 4
      ∧ (main sampleEnv { sampleCommandLine with l := "list2.yml" }).2
          = Outcome.assertionFailure
      ∧ ¬ ∃ e ∈ (main sampleEnv { sampleCommandLine with l := "list2.yml" }).1,
          e.isSaveCall = true :=
  ⟨_, _, rfl, rfl, by decide, by decide, by decide⟩

/-- C3, amended: in a run that reaches the acquisition and is no test run, with
`n` frames retained, the second interpolation pass yields exactly `n` entries;
for `1 ≤ n ≤ 3` `main` prints "Not enough corners for calibration" after the
marker-only calibration and the interpolation pass and returns 0, without a
call of `calibrateCameraCharuco2` or `saveCameraParams` and without a write;
`calibrateCameraCharuco2` is called if and only if `4 ≤ n`; `saveCameraParams`
is called if and only if `4 ≤ n` and `calibrateCameraCharuco2` returns. -/
theorem second_gate_needs_four_frames (env : Env) (cl : CommandLine) (ev : List Event)
    (cfg : Config) (hinit : initialise env cl = (ev, Sum.inr cfg)) (htest : cl.test = false) :
    (secondPass env cfg (acquire env cfg).2.1).length = (acquire env cfg).2.1.allIds.length
    ∧ (1 ≤ (acquire env cfg).2.1.allIds.length → (acquire env cfg).2.1.allIds.length ≤ 3 →
        main env cl =
          (ev ++ (acquire env cfg).1 ++ ([arucoCall cfg (acquire env cfg).2.1]
            ++ secondPassEvents (acquire env cfg).2.1
            ++ [Event.cerr "Not enough corners for calibration\n"]), Outcome.exit 0)
        ∧ ∀ e ∈ (main env cl).1,
            e.isCharucoCall = false ∧ e.isSaveCall = false ∧ e.isFileWrite = false)
    ∧ ((∃ e ∈ (main env cl).1, e.isCharucoCall = true)
        ↔ 4 ≤ (acquire env cfg).2.1.allIds.length)
    ∧ ((∃ e ∈ (main env cl).1, e.isSaveCall = true)
        ↔ 4 ≤ (acquire env cfg).2.1.allIds.length
          ∧ (charucoResult env cfg (acquire env cfg).2.1).2 ≠ none) := by
  have hal := acquire_aligned env cfg
  refine ⟨?_, ?_, ?_, ?_⟩
  · rw [secondPass_length, hal]
  · intro h1 h3
    have hm : main env cl =
        (ev ++ (acquire env cfg).1 ++ ([arucoCall cfg (acquire env cfg).2.1]
          ++ secondPassEvents (acquire env cfg).2.1
          ++ [Event.cerr "Not enough corners for calibration\n"]), Outcome.exit 0) := by
      rw [main_of_run env cl ev cfg hinit htest,
        calibrate_few_frames env cfg _ _ h1 (by omega)]
    refine ⟨hm, ?_⟩
    intro e he
    have hc : ¬ ∃ e ∈ (main env cl).1, e.isCharucoCall = true := by
      rw [main_run_exists_iff env cl ev cfg hinit htest Event.isCharucoCall
        (fun e h => (quiet_event e h).2.1), calibrate_charucoCall_iff env cfg _ _ hal]
      omega
    have hs : ¬ ∃ e ∈ (main env cl).1, e.isSaveCall = true := by
      rw [main_run_exists_iff env cl ev cfg hinit htest Event.isSaveCall
        (fun e h => (quiet_event e h).2.2.1), calibrate_saveCall_iff env cfg _ _ hal]
      omega
    refine ⟨?_, ?_, ?_⟩
    · cases h : e.isCharucoCall
      · rfl
      · exact absurd ⟨e, he, h⟩ hc
    · cases h : e.isSaveCall
      · rfl
      · exact absurd ⟨e, he, h⟩ hs
    · rw [hm] at he
      simp only [List.mem_append, List.mem_singleton] at he
      rcases he with (he | he) | ((rfl | he) | rfl)
      · exact quiet_not_write e (initialise_events_quiet env cl ev cfg hinit e he)
      · exact quiet_not_write e (acquire_quiet env cfg e he)
      · rfl
      · exact quiet_not_write e (secondPassEvents_events _ e he).2.2.2.2
      · rfl
  · rw [main_run_exists_iff env cl ev cfg hinit htest Event.isCharucoCall
      (fun e h => (quiet_event e h).2.1), calibrate_charucoCall_iff env cfg _ _ hal]
  · rw [main_run_exists_iff env cl ev cfg hinit htest Event.isSaveCall
      (fun e h => (quiet_event e h).2.2.1), calibrate_saveCall_iff env cfg _ _ hal]

/-- The list of two images stops at the second gate with exit status 0; the
list of four images with a marker each reaches `saveCameraParams`. -/
theorem second_gate_needs_four_frames_witness :
    (main sampleEnv { sampleCommandLine with l := "list3.yml" }).2 = Outcome.exit 0
    ∧ ∃ e ∈ (main sampleEnv sampleCommandLine).1, e.isSaveCall = true :=
  ⟨congrArg Prod.snd
      ((second_gate_needs_four_frames sampleEnv { sampleCommandLine with l := "list3.yml" }
        _ _ rfl rfl).2.1 (by decide) (by decide)).1,
   (second_gate_needs_four_frames sampleEnv sampleCommandLine _ _ rfl rfl).2.2.2.mpr
      ⟨by decide, by decide⟩⟩

/-- C4: when the checks pass (a non-empty list of frames, as many frames of
corners as of ids, every frame with a non-zero corner count equal to its id
count, every id in the range of the board's corner table),
`calibrateCameraCharuco2` prints the sizes, calls `calibrateCameraRO` once and
returns its result. The object points passed have one entry per frame, entry
`i` has the length of `ids[i]` and its element `j` is
`board.chessboardCorners[ids[i][j]]`; the image points, image size, `iFix`,
camera matrix, distortion coefficients and flags are passed on unchanged. -/
theorem calibrateCameraCharuco2_delegates (env : Env) (charucoCorners : List (List Point2f))
    (charucoIds : List (List Int)) (board : CharucoBoard) (imageSize : Size)
    (cameraMatrix distCoeffs : Mat) (flags iFix : Int)
    (hne : charucoIds ≠ []) (hlen : charucoIds.length = charucoCorners.length)
    (hframes : ∀ (i : Nat) (ids : List Int) (c : List Point2f),
      charucoIds[i]? = some ids → charucoCorners[i]? = some c →
        c.length ≠ 0 ∧ c.length = ids.length)
    (hids : ∀ ids ∈ charucoIds, ∀ id ∈ ids,
      0 ≤ id ∧ id < (board.chessboardCorners.length : Int)) :
    ∃ allObjPoints : List (List Point3f),
      calibrateCameraCharuco2 env charucoCorners charucoIds board imageSize cameraMatrix
          distCoeffs flags iFix
        = (allObjPoints.map (fun point => Event.cout (toString point.length ++ "\n"))
            ++ [Event.calibrateCameraRO allObjPoints charucoCorners imageSize iFix cameraMatrix
                  distCoeffs flags],
           some (env.calibrateCameraRO allObjPoints charucoCorners imageSize iFix cameraMatrix
                  distCoeffs flags))
      ∧ allObjPoints.length = charucoIds.length
      ∧ ∀ (i : Nat) (ids : List Int), charucoIds[i]? = some ids →
          ∃ pts : List Point3f, allObjPoints[i]? = some pts ∧ pts.length = ids.length ∧
            ∀ (j : Nat) (id : Int), ids[j]? = some id →
              pts[j]? = board.chessboardCorners[id.toNat]? ∧ 0 ≤ id
                ∧ id.toNat < board.chessboardCorners.length := by
  have hpos : charucoIds.length > 0 := List.length_pos.mpr hne
  cases hb : buildObjPoints board charucoCorners charucoIds with
  | none =>
    exfalso
    obtain ⟨i, ids, c, h1, h2, h3⟩ :=
      (buildObjPoints_eq_none_iff board charucoCorners charucoIds hlen).mp hb
    obtain ⟨hc0, hcl⟩ := hframes i ids c h1 h2
    rcases h3 with h3 | h3 | ⟨id, hid, hbad⟩
    · omega
    · exact h3 hcl
    · have := hids ids (List.getElem?_mem h1) id hid
      omega
  | some objs =>
    refine ⟨objs, ?_, buildObjPoints_eq_some board charucoCorners charucoIds objs hb⟩
    have hcond : charucoIds.length > 0 ∧ charucoIds.length = charucoCorners.length :=
      ⟨hpos, hlen⟩
    simp only [calibrateCameraCharuco2, if_pos hcond, hb]

/-- One frame with the corner ids `1, 0` on the sample board. -/
theorem calibrateCameraCharuco2_delegates_witness :
    ∃ allObjPoints : List (List Point3f),
      calibrateCameraCharuco2 sampleEnv [[{ x := 3, y := 4 }, { x := 5, y := 6 }]] [[1, 0]]
          sampleBoard { width := 640, height := 480 } [] [] 2 3
        = (allObjPoints.map (fun point => Event.cout (toString point.length ++ "\n"))
            ++ [Event.calibrateCameraRO allObjPoints [[{ x := 3, y := 4 }, { x := 5, y := 6 }]]
                  { width := 640, height := 480 } 3 [] [] 2],
           some (sampleEnv.calibrateCameraRO allObjPoints
                  [[{ x := 3, y := 4 }, { x := 5, y := 6 }]] { width := 640, height := 480 } 3
                  [] [] 2))
      ∧ allObjPoints.length = [[(1 : Int), 0]].length
      ∧ ∀ (i : Nat) (ids : List Int), [[(1 : Int), 0]][i]? = some ids →
          ∃ pts : List Point3f, allObjPoints[i]? = some pts ∧ pts.length = ids.length ∧
            ∀ (j : Nat) (id : Int), ids[j]? = some id →
              pts[j]? = sampleBoard.chessboardCorners[id.toNat]? ∧ 0 ≤ id
                ∧ id.toNat < sampleBoard.chessboardCorners.length :=
  calibrateCameraCharuco2_delegates sampleEnv [[{ x := 3, y := 4 }, { x := 5, y := 6 }]] [[1, 0]]
    sampleBoard { width := 640, height := 480 } [] [] 2 3 (by decide) (by decide)
    (by
      intro i ids c h1 h2
      cases i with
      | zero =>
        simp only [List.getElem?_cons_zero, Option.some.injEq] at h1 h2
        subst h1 h2
        decide
      | succ i => simp at h1)
    (by
      intro ids hids id hid
      simp only [List.mem_singleton] at hids
      subst hids
      simp only [List.mem_cons, List.mem_singleton, List.mem_nil_iff, or_false] at hid
      rcases hid with rfl | rfl <;> decide)

/-- C5: when the output file opens, `saveCameraParams` returns `true` and writes
the keys `calibration_time`, `image_width`, `image_height`, then `aspectRatio`
exactly when the `CALIB_FIX_ASPECT_RATIO` bit of `flags` is set, then `flags`,
`camera_matrix`, `distortion_coefficients`, `avg_reprojection_error`, in this
order, with the given size, flags, matrix, distortion vector and error as
values; when the file does not open it returns `false` and writes nothing. -/
theorem saveCameraParams_record_layout (env : Env) (filename : String) (imageSize : Size)
    (aspectRatio : Rat) (flags : Int) (cameraMatrix distCoeffs : Mat) (totalAvgErr : Rat) :
    (env.openWrite filename = true →
      saveCameraParams env filename imageSize aspectRatio flags cameraMatrix distCoeffs totalAvgErr
        = (true,
            [("calibration_time", Value.str env.calibrationTime),
             ("image_width", Value.int imageSize.width),
             ("image_height", Value.int imageSize.height)]
            ++ (if flags.land CALIB_FIX_ASPECT_RATIO ≠ 0
                then [("aspectRatio", Value.real aspectRatio)] else [])
            ++ [("flags", Value.int flags),
                ("camera_matrix", Value.mat cameraMatrix),
                ("distortion_coefficients", Value.mat distCoeffs),
                ("avg_reprojection_error", Value.real totalAvgErr)]))
    ∧ (env.openWrite filename = false →
      saveCameraParams env filename imageSize aspectRatio flags cameraMatrix distCoeffs totalAvgErr
        = (false, [])) := by
  constructor
  · intro h
    by_cases hf : flags.land CALIB_FIX_ASPECT_RATIO = 0 <;>
      simp [saveCameraParams, saveCameraParamsBody, h, hf]
  · intro h
    simp [saveCameraParams, h]

/-- The record written for a fixed aspect ratio `4/3`, and the refusal of a file
that does not open. -/
theorem saveCameraParams_record_layout_witness :
    saveCameraParams sampleEnv "out.yml" { width := 640, height := 480 } (4 / 3) 2
        [[1, 0, 0], [0, 1, 0], [0, 0, 1]] [[0, 0, 0, 0, 0]] (1 / 2)
      = (true,
          [("calibration_time", Value.str "Sat Oct 31 12:00:00 2026"),
           ("image_width", Value.int 640),
           ("image_height", Value.int 480),
           ("aspectRatio", Value.real (4 / 3)),
           ("flags", Value.int 2),
           ("camera_matrix", Value.mat [[1, 0, 0], [0, 1, 0], [0, 0, 1]]),
           ("distortion_coefficients", Value.mat [[0, 0, 0, 0, 0]]),
           ("avg_reprojection_error", Value.real (1 / 2))])
    ∧ saveCameraParams sampleEnv "/no/such/dir/out.yml" { width := 640, height := 480 } (4 / 3) 2
        [[1, 0, 0], [0, 1, 0], [0, 0, 1]] [[0, 0, 0, 0, 0]] (1 / 2) = (false, []) :=
  ⟨(saveCameraParams_record_layout sampleEnv "out.yml" { width := 640, height := 480 } (4 / 3) 2
      [[1, 0, 0], [0, 1, 0], [0, 0, 1]] [[0, 0, 0, 0, 0]] (1 / 2)).1 (by decide),
   (saveCameraParams_record_layout sampleEnv "/no/such/dir/out.yml"
      { width := 640, height := 480 } (4 / 3) 2
      [[1, 0, 0], [0, 1, 0], [0, 0, 1]] [[0, 0, 0, 0, 0]] (1 / 2)).2 (by decide)⟩

/-- C6 does not hold of the code: with `flags = CALIB_FIX_ASPECT_RATIO` the text
"flags: +fix_aspectRatio" is formatted into the local `buf`, but the records
written are the eight of the layout and none of them carries that text. -/
theorem saveCameraParams_omits_flag_summary :
    (saveCameraParamsBody sampleEnv.calibrationTime { width := 640, height := 480 } (4 / 3) 2
        [[1, 0, 0], [0, 1, 0], [0, 0, 1]] [[0, 0, 0, 0, 0]] (1 / 2)).buf
      = "flags: +fix_aspectRatio"
    ∧ saveCameraParams sampleEnv "out.yml" { width := 640, height := 480 } (4 / 3) 2
        [[1, 0, 0], [0, 1, 0], [0, 0, 1]] [[0, 0, 0, 0, 0]] (1 / 2)
      = (true,
          [("calibration_time", Value.str "Sat Oct 31 12:00:00 2026"),
           ("image_width", Value.int 640),
           ("image_height", Value.int 480),
           ("aspectRatio", Value.real (4 / 3)),
           ("flags", Value.int 2),
           ("camera_matrix", Value.mat [[1, 0, 0], [0, 1, 0], [0, 0, 1]]),
           ("distortion_coefficients", Value.mat [[0, 0, 0, 0, 0]]),
           ("avg_reprojection_error", Value.real (1 / 2))])
    ∧ ∀ kv ∈ (saveCameraParams sampleEnv "out.yml" { width := 640, height := 480 } (4 / 3) 2
        [[1, 0, 0], [0, 1, 0], [0, 0, 1]] [[0, 0, 0, 0, 0]] (1 / 2)).2,
        kv.2 ≠ Value.str (flagsSummary 2) := by
  refine ⟨by decide, by rfl, by decide⟩

/-- C7: a run that reaches the acquisition with `-test` set ends after the
acquisition loop with the message "Test run finished" and exit status 0; its
trace has no calibration call, no `saveCameraParams` call and no write,
whatever the detections and keys; with a non-empty image list nothing is
retained. With `-test` unset and a non-empty image list the retained corners,
ids and images are those of every image of the list, in order. -/
theorem test_run_never_calibrates (env : Env) (cl : CommandLine) (ev : List Event)
    (cfg : Config) (hinit : initialise env cl = (ev, Sum.inr cfg)) :
    (cl.test = true →
      main env cl =
        (ev ++ (acquire env cfg).1 ++ [Event.cout "Test run finished\n"], Outcome.exit 0)
      ∧ Quiet (main env cl).1
      ∧ (cfg.imageList ≠ [] → (acquire env cfg).2.1 = Acquired.empty))
    ∧ (cl.test = false → cfg.imageList ≠ [] →
        (acquire env cfg).2.1.allCorners
          = cfg.imageList.map (fun name => (detect env cfg (env.imread name)).2.corners)
        ∧ (acquire env cfg).2.1.allIds
          = cfg.imageList.map (fun name => (detect env cfg (env.imread name)).2.ids)
        ∧ (acquire env cfg).2.1.allImgs = cfg.imageList.map env.imread) := by
  have hc := (initialise_config env cl ev cfg hinit).1
  constructor
  · intro htest
    have hm := main_of_test env cl ev cfg hinit htest
    refine ⟨hm, ?_, ?_⟩
    · rw [hm]
      simp [quiet_append, quiet_cons, quiet_nil, Event.isSolveOrSave,
        initialise_events_quiet env cl ev cfg hinit, acquire_quiet env cfg]
    · intro hlist
      have hne : cfg.imageList.isEmpty = false := by
        cases h : cfg.imageList with
        | nil => exact absurd h hlist
        | cons a l => rfl
      simp only [acquire, hne]
      exact imageListLoop_test env cfg (by rw [hc, htest]) _ _ _
  · intro htest hlist
    have hne : cfg.imageList.isEmpty = false := by
      cases h : cfg.imageList with
      | nil => exact absurd h hlist
      | cons a l => rfl
    have := imageListLoop_retains env cfg (by rw [hc, htest]) cfg.imageList 0 Acquired.empty
    simpa [acquire, hne, Acquired.empty] using this

/-- The sample command line with `-test` ends with exit status 0 and a trace
without calibration and output. -/
theorem test_run_never_calibrates_witness :
    (main sampleEnv { sampleCommandLine with test := true }).2 = Outcome.exit 0
    ∧ Quiet (main sampleEnv { sampleCommandLine with test := true }).1 :=
  ⟨congrArg Prod.snd
      ((test_run_never_calibrates sampleEnv { sampleCommandLine with test := true }
        _ _ rfl).1 rfl).1,
   ((test_run_never_calibrates sampleEnv { sampleCommandLine with test := true }
        _ _ rfl).1 rfl).2.1⟩

/-- C8: `calibrationFlags` is the bitwise OR of `CALIB_FIX_ASPECT_RATIO` when `-a`
is present, `CALIB_ZERO_TANGENT_DIST` when `-zt` is true and
`CALIB_FIX_PRINCIPAL_POINT` when `-pc` is true: each of the three bits is set
exactly when its option is, the `CALIB_USE_INTRINSIC_GUESS` bit is clear and no
bit other than bits 1, 2, 3 is set. Every call in the trace of `main` that takes
flags (`calibrateCameraAruco`, `calibrateCameraCharuco2`, `calibrateCameraRO`,
`saveCameraParams`) is passed this value. `aspectRatio` is the value of `-a`
when present and 1 otherwise. -/
theorem calibrationFlags_from_three_options (env : Env) (cl : CommandLine) :
    calibrationFlags cl
        = (((if cl.a.isSome then CALIB_FIX_ASPECT_RATIO else 0).lor
            (if cl.zt then CALIB_ZERO_TANGENT_DIST else 0)).lor
            (if cl.pc then CALIB_FIX_PRINCIPAL_POINT else 0))
    ∧ (((calibrationFlags cl).land CALIB_FIX_ASPECT_RATIO ≠ 0 ↔ cl.a.isSome = true)
        ∧ ((calibrationFlags cl).land CALIB_ZERO_TANGENT_DIST ≠ 0 ↔ cl.zt = true)
        ∧ ((calibrationFlags cl).land CALIB_FIX_PRINCIPAL_POINT ≠ 0 ↔ cl.pc = true))
    ∧ (calibrationFlags cl).land CALIB_USE_INTRINSIC_GUESS = 0
    ∧ (∀ k : Nat, (calibrationFlags cl).testBit k = true → k = 1 ∨ k = 2 ∨ k = 3)
    ∧ (∀ e ∈ (main env cl).1, ∀ flags : Int,
        e.passedFlags = some flags → flags = calibrationFlags cl)
    ∧ aspectRatio cl = (match cl.a with | some r => r | none => 1) := by
  have hval : ∃ n : Nat, n < 16 ∧ n % 2 = 0 ∧ calibrationFlags cl = Int.ofNat n := by
    unfold calibrationFlags
    cases cl.a.isSome <;> cases cl.zt <;> cases cl.pc
    · exact ⟨0, by decide, by decide, by decide⟩
    · exact ⟨4, by decide, by decide, by decide⟩
    · exact ⟨8, by decide, by decide, by decide⟩
    · exact ⟨12, by decide, by decide, by decide⟩
    · exact ⟨2, by decide, by decide, by decide⟩
    · exact ⟨6, by decide, by decide, by decide⟩
    · exact ⟨10, by decide, by decide, by decide⟩
    · exact ⟨14, by decide, by decide, by decide⟩
  refine ⟨?_, ?_, ?_, ?_, ?_, ?_⟩
  · unfold calibrationFlags
    cases cl.a.isSome <;> cases cl.zt <;> cases cl.pc <;> decide
  · unfold calibrationFlags
    cases cl.a.isSome <;> cases cl.zt <;> cases cl.pc <;> decide
  · unfold calibrationFlags
    cases cl.a.isSome <;> cases cl.zt <;> cases cl.pc <;> decide
  · intro k hk
    obtain ⟨n, hn, heven, hflags⟩ := hval
    rw [hflags] at hk
    have hk4 := testBit_small n hn k hk
    have hk0 : k ≠ 0 := by
      rintro rfl
      simp [Int.testBit, Nat.testBit_zero] at hk
      omega
    omega
  · intro e he flags hflags
    cases hi : initialise env cl with
    | mk ev r =>
      cases r with
      | inl outcome =>
        have hq := initialise_quiet env cl
        have hm : (main env cl).1 = ev := by simp [main, hi]
        rw [hm] at he
        rw [hi] at hq
        rw [(quiet_event e (hq e he)).2.2.2] at hflags
        cases hflags
      | inr cfg =>
        have hc := initialise_config env cl ev cfg hi
        cases htest : cl.test with
        | true =>
          have hm := main_of_test env cl ev cfg hi htest
          have hq : Quiet (main env cl).1 := by
            rw [hm]
            simp [quiet_append, quiet_cons, quiet_nil, Event.isSolveOrSave,
              initialise_events_quiet env cl ev cfg hi, acquire_quiet env cfg]
          rw [(quiet_event e (hq e he)).2.2.2] at hflags
          cases hflags
        | false =>
          rw [main_of_run env cl ev cfg hi htest] at he
          simp only [List.mem_append] at he
          rcases he with (he | he) | he
          · rw [(quiet_event e (initialise_events_quiet env cl ev cfg hi e he)).2.2.2] at hflags
            cases hflags
          · rw [(quiet_event e (acquire_quiet env cfg e he)).2.2.2] at hflags
            cases hflags
          · rcases calibrate_flags env cfg _ _ e he with h | h
            · rw [h] at hflags; cases hflags
            · rw [h, hc.2.1] at hflags
              exact (Option.some.inj hflags).symm
  · rfl

/-- With `-a=4/3 -zt` the flags are `2 | 8 = 10`, and the call of
`saveCameraParams` in the trace carries them. -/
theorem calibrationFlags_from_three_options_witness :
    Event.callSaveCameraParams "out.yml" { width := 640, height := 480 } (4 / 3) 10
        [[1, 0, 0], [0, 1, 0], [0, 0, 1]] [[0, 0, 0, 0, 0]] (1 / 2)
      ∈ (main sampleEnv { sampleCommandLine with a := some (4 / 3), zt := true }).1
    ∧ (10 : Int) = calibrationFlags { sampleCommandLine with a := some (4 / 3), zt := true } :=
  ⟨@List.getElem?_mem Event _ 33 _ rfl,
   (calibrationFlags_from_three_options sampleEnv
      { sampleCommandLine with a := some (4 / 3), zt := true }).2.2.2.2.1
      (Event.callSaveCameraParams "out.yml" { width := 640, height := 480 } (4 / 3) 10
        [[1, 0, 0], [0, 1, 0], [0, 0, 1]] [[0, 0, 0, 0, 0]] (1 / 2))
      (@List.getElem?_mem Event _ 33 _ rfl) 10 rfl⟩

/-- C9: `readDetectorParameters` returns `false` exactly when the file does not
open, and `true` for every file that opens, whatever it contains; when `-dp` is
given and the read returns `false`, `main` prints "Invalid detector parameters
file" and returns 0, its trace being the attempt to read that file and the
message: no capture opened, no frame processed, nothing written. -/
theorem invalid_detector_parameters_end_run (env : Env) (cl : CommandLine) (file : String)
    (params : DetectorParameters) :
    ((readDetectorParameters env file params).1 = false ↔ env.openRead file = none)
    ∧ (∀ fs, env.openRead file = some fs → (readDetectorParameters env file params).1 = true)
    ∧ (7 ≤ cl.argc → cl.dp = some file →
        (readDetectorParameters env file env.defaultDetectorParameters).1 = false →
        main env cl =
          ([Event.fileRead file, Event.cerr "Invalid detector parameters file\n"],
            Outcome.exit 0)) := by
  refine ⟨?_, ?_, ?_⟩
  · unfold readDetectorParameters
    cases env.openRead file <;> simp
  · intro fs h
    simp [readDetectorParameters, h]
  · intro hargc hdp hread
    have h7 : ¬ cl.argc < 7 := by omega
    simp [main, initialise, h7, loadDetectorParameters, hdp, hread]

/-- The sample command line with `-dp=missing.yml`, a file that does not open. -/
theorem invalid_detector_parameters_end_run_witness :
    main sampleEnv { sampleCommandLine with dp := some "missing.yml" } =
      ([Event.fileRead "missing.yml", Event.cerr "Invalid detector parameters file\n"],
        Outcome.exit 0) :=
  (invalid_detector_parameters_end_run sampleEnv
    { sampleCommandLine with dp := some "missing.yml" }
    "missing.yml" sampleParameters).2.2 (by decide) rfl (by rfl)

/-- C10: `calibrateCameraCharuco2` fails a `CV_Assert` if and only if the list of
ids is empty, or the lists of ids and of corners differ in length, or some frame
has no id or a corner count other than its id count, or some id is negative or
not below the size of the board's corner table; when it fails it has printed
nothing and has not called `calibrateCameraRO`. In a run of `main` that is no
test run and has at least four frames retained, one frame without interpolated
corners ends the run by the failed assertion, right after the call of
`calibrateCameraCharuco2`, with no message and no output. -/
theorem calibrateCameraCharuco2_fails_on_malformed_input (env : Env)
    (charucoCorners : List (List Point2f)) (charucoIds : List (List Int)) (board : CharucoBoard)
    (imageSize : Size) (cameraMatrix distCoeffs : Mat) (flags iFix : Int)
    (cl : CommandLine) (ev : List Event) (cfg : Config) :
    ((calibrateCameraCharuco2 env charucoCorners charucoIds board imageSize cameraMatrix
        distCoeffs flags iFix).2 = none ↔
      (charucoIds = [] ∨ charucoIds.length ≠ charucoCorners.length
        ∨ (∃ (i : Nat) (ids : List Int) (c : List Point2f),
            charucoIds[i]? = some ids ∧ charucoCorners[i]? = some c
              ∧ (ids.length = 0 ∨ c.length ≠ ids.length))
        ∨ (∃ ids ∈ charucoIds, ∃ id ∈ ids,
            id < 0 ∨ (board.chessboardCorners.length : Int) ≤ id)))
    ∧ ((calibrateCameraCharuco2 env charucoCorners charucoIds board imageSize cameraMatrix
        distCoeffs flags iFix).2 = none →
      (calibrateCameraCharuco2 env charucoCorners charucoIds board imageSize cameraMatrix
        distCoeffs flags iFix).1 = [])
    ∧ (initialise env cl = (ev, Sum.inr cfg) → cl.test = false →
        4 ≤ (acquire env cfg).2.1.allIds.length →
        (∃ c ∈ secondPass env cfg (acquire env cfg).2.1, c.corners = []) →
        main env cl =
          (ev ++ (acquire env cfg).1 ++ ([arucoCall cfg (acquire env cfg).2.1]
            ++ secondPassEvents (acquire env cfg).2.1
            ++ [charucoCall env cfg (acquire env cfg).2.1]), Outcome.assertionFailure)) := by
  refine ⟨calibrateCameraCharuco2_eq_none_iff _ _ _ _ _ _ _ _ _,
    calibrateCameraCharuco2_silent_on_failure _ _ _ _ _ _ _ _ _, ?_⟩
  intro hinit htest h4 hempty
  have hal := acquire_aligned env cfg
  rw [main_of_run env cl ev cfg hinit htest,
    calibrate_assertion env cfg _ _ (by omega) (by omega)
      (charucoResult_none_of_empty_frame env cfg _ hempty)]

/-- A frame with an id outside the two-corner sample board fails without any
event, and the list with `edge.png` ends the sample run by assertion. -/
theorem calibrateCameraCharuco2_fails_on_malformed_input_witness :
    (calibrateCameraCharuco2 sampleEnv [[{ x := 3, y := 4 }]] [[2]] sampleBoard
        { width := 640, height := 480 } [] [] 0 3).1 = []
    ∧ (main sampleEnv { sampleCommandLine with l := "list2.yml" }).2
        = Outcome.assertionFailure :=
  ⟨(calibrateCameraCharuco2_fails_on_malformed_input sampleEnv [[{ x := 3, y := 4 }]] [[2]]
      sampleBoard { width := 640, height := 480 } [] [] 0 3 sampleCommandLine []
      sampleConfig).2.1 (by decide),
   congrArg Prod.snd
    ((calibrateCameraCharuco2_fails_on_malformed_input sampleEnv [] [] sampleBoard
      { width := 640, height := 480 } [] [] 0 0 { sampleCommandLine with l := "list2.yml" }
      _ _).2.2 rfl rfl (by decide) (by decide))⟩

/-- C11: when every retained frame has as many ids as marker corner quadruples,
`markerCounterPerFrame` has one entry per frame, the number of markers of that
frame; `allCornersConcatenated` and `allIdsConcatenated` are the concatenations
of the per-frame corner quadruples and ids, in frame order and in the order
within the frame; the length of both is the sum of the counters; and splitting
them by the counters gives the per-frame lists back. -/
theorem marshal_concatenates_frames (allCorners : List (List (List Point2f)))
    (allIds : List (List Int))
    (h : allIds.map List.length = allCorners.map List.length) :
    (marshal allCorners allIds).markerCounterPerFrame
        = allCorners.map (fun c => (c.length : Int))
    ∧ (marshal allCorners allIds).markerCounterPerFrame
        = allIds.map (fun ids => (ids.length : Int))
    ∧ (marshal allCorners allIds).allCornersConcatenated = allCorners.flatten
    ∧ (marshal allCorners allIds).allIdsConcatenated = allIds.flatten
    ∧ ((marshal allCorners allIds).allCornersConcatenated.length : Int)
        = (marshal allCorners allIds).markerCounterPerFrame.sum
    ∧ ((marshal allCorners allIds).allIdsConcatenated.length : Int)
        = (marshal allCorners allIds).markerCounterPerFrame.sum
    ∧ splitByCounter (marshal allCorners allIds).markerCounterPerFrame
        (marshal allCorners allIds).allCornersConcatenated = allCorners
    ∧ splitByCounter (marshal allCorners allIds).markerCounterPerFrame
        (marshal allCorners allIds).allIdsConcatenated = allIds := by
  have hcount : allCorners.map (fun c => (c.length : Int))
      = allIds.map (fun ids => (ids.length : Int)) := by
    have := congrArg (List.map (fun n : Nat => (n : Int))) h
    simpa [List.map_map, Function.comp_def] using this.symm
  rw [marshal_eq allCorners allIds h]
  refine ⟨rfl, hcount, rfl, rfl, length_flatten_cast allCorners, ?_,
    splitByCounter_flatten allCorners, ?_⟩
  · show (allIds.flatten.length : Int) = (allCorners.map (fun c => (c.length : Int))).sum
    rw [hcount]
    exact length_flatten_cast allIds
  · show splitByCounter (allCorners.map (fun c => (c.length : Int))) allIds.flatten = allIds
    rw [hcount]
    exact splitByCounter_flatten allIds

/-- Two frames, the first with two markers and the second with one. -/
theorem marshal_concatenates_frames_witness :
    (marshal [[sampleQuad, sampleQuad], [sampleQuad]] [[3, 5], [7]]).markerCounterPerFrame
        = [2, 1]
    ∧ (marshal [[sampleQuad, sampleQuad], [sampleQuad]] [[3, 5], [7]]).allIdsConcatenated
        = [3, 5, 7]
    ∧ splitByCounter
        (marshal [[sampleQuad, sampleQuad], [sampleQuad]] [[3, 5], [7]]).markerCounterPerFrame
        (marshal [[sampleQuad, sampleQuad], [sampleQuad]] [[3, 5], [7]]).allIdsConcatenated
        = [[3, 5], [7]] :=
  ⟨(marshal_concatenates_frames [[sampleQuad, sampleQuad], [sampleQuad]] [[3, 5], [7]]
      (by decide)).1,
   (marshal_concatenates_frames [[sampleQuad, sampleQuad], [sampleQuad]] [[3, 5], [7]]
      (by decide)).2.2.2.1,
   (marshal_concatenates_frames [[sampleQuad, sampleQuad], [sampleQuad]] [[3, 5], [7]]
      (by decide)).2.2.2.2.2.2.2⟩

/-- C12: in a run that is no test run, with a non-empty image list, the loop
retains the detection of every image of the list, whatever was detected, so the
number of retained frames is the number of images and `imgSize` is the size of
the last image. With an empty image list (camera or video input) the retained
frames are the frames before the first key ESC at which the key is `c` and at
least one marker was detected; the loop ends at the first ESC or failed grab;
and every retained frame has at least one marker id. -/
theorem frame_retention_by_source (env : Env) (cfg : Config) :
    (cfg.isTestRun = false → ∀ hlist : cfg.imageList ≠ [],
        (acquire env cfg).2.1.allCorners
          = cfg.imageList.map (fun name => (detect env cfg (env.imread name)).2.corners)
        ∧ (acquire env cfg).2.1.allIds
          = cfg.imageList.map (fun name => (detect env cfg (env.imread name)).2.ids)
        ∧ (acquire env cfg).2.1.allImgs = cfg.imageList.map env.imread
        ∧ (acquire env cfg).2.1.allIds.length = cfg.imageList.length
        ∧ (acquire env cfg).2.1.imgSize = (env.imread (cfg.imageList.getLast hlist)).size)
    ∧ (cfg.imageList = [] →
        (acquire env cfg).2.1.allImgs = framesCaptured env cfg 0 cfg.inputVideo
        ∧ (acquire env cfg).2.1.allIds
          = (framesCaptured env cfg 0 cfg.inputVideo).map
              (fun image => (detect env cfg image).2.ids)
        ∧ (acquire env cfg).2.1.allCorners
          = (framesCaptured env cfg 0 cfg.inputVideo).map
              (fun image => (detect env cfg image).2.corners)
        ∧ (acquire env cfg).2.2
          = min ((framesBeforeEsc env 0 cfg.inputVideo).length + 1) cfg.inputVideo.length
        ∧ ∀ ids ∈ (acquire env cfg).2.1.allIds, 1 ≤ ids.length) := by
  constructor
  · intro htest hlist
    have hne : cfg.imageList.isEmpty = false := by
      cases h : cfg.imageList with
      | nil => exact absurd h hlist
      | cons a l => rfl
    obtain ⟨h1, h2, h3⟩ := imageListLoop_retains env cfg htest cfg.imageList 0 Acquired.empty
    have h4 := imageListLoop_imgSize env cfg htest cfg.imageList 0 Acquired.empty
    simp only [acquire, hne, Bool.false_eq_true, if_false]
    rw [h1, h2, h3, h4, List.getLast?_eq_getLast cfg.imageList hlist]
    simp [Acquired.empty]
  · intro hlist
    obtain ⟨h1, h2, h3, h4⟩ := cameraLoop_retains env cfg cfg.inputVideo 0 Acquired.empty
    simp only [acquire, hlist, List.isEmpty_nil, if_true]
    rw [h1, h2, h3, h4]
    refine ⟨by simp [Acquired.empty], by simp [Acquired.empty], by simp [Acquired.empty],
      by simp, ?_⟩
    intro ids hids
    simp only [Acquired.empty, List.nil_append, List.mem_map] at hids
    obtain ⟨image, himage, rfl⟩ := hids
    exact framesCaptured_have_ids env cfg 0 cfg.inputVideo image himage

/-- Four images without a marker are all retained; of the five frames of the
sample camera only frame 0 is: frame 1 has no marker, frame 2 no key, frame 3
the key ESC, and frame 4 is never grabbed. -/
theorem frame_retention_by_source_witness :
    ((acquire blankEnv sampleConfig).2.1.allIds = [[], [], [], []]
      ∧ (acquire blankEnv sampleConfig).2.1.imgSize = { width := 640, height := 480 })
    ∧ ((acquire cameraEnv cameraConfig).2.1.allImgs = [sampleFrame 0]
      ∧ (acquire cameraEnv cameraConfig).2.2 = 4) :=
  ⟨⟨((frame_retention_by_source blankEnv sampleConfig).1 rfl (by decide)).2.1,
    ((frame_retention_by_source blankEnv sampleConfig).1 rfl (by decide)).2.2.2.2⟩,
   ⟨((frame_retention_by_source cameraEnv cameraConfig).2 rfl).1,
    ((frame_retention_by_source cameraEnv cameraConfig).2 rfl).2.2.2.1⟩⟩

end Charuco
